import Mathlib

/- Verification of the PostGIS NURBS / GSERIALIZED2 core.

   Shallow embedding of:
   - src/liblwgeom/lwgeom_nurbs.c       (NURBS construction, knots, evaluation)
   - src/liblwgeom/gserialized2.c       (GS2 sizer, encoder, decoder, emptiness
                                         probe, bounding-box peek)
   - the WKB writer for NURBS curves    (src/unnamed/part_000)
   - src/postgis/lwgeom_nurbs_functions.c (SQL-facing NURBS accessors)

   C doubles are modelled as rationals; machine 32-bit words hold values far
   below 2^32 in every claim, so they are modelled as Nat. -/

namespace PostGis

/-- The internal unknown-SRID sentinel (liblwgeom: SRID_UNKNOWN = 0). -/
def SRID_UNKNOWN : Int := 0

/-- In-memory geometry flags (lwflags_t): core bits Z, M, BBOX, GEODETIC and
    the extended-word bit SOLID. -/
structure Lwflags where
  z : Bool
  m : Bool
  bbox : Bool
  geodetic : Bool
  solid : Bool
deriving DecidableEq, Repr

/-- FLAGS_NDIMS: 2 + Z + M. -/
def Lwflags.ndims (f : Lwflags) : Nat :=
  2 + (cond f.z 1 0) + (cond f.m 1 0)

/-- FLAGS_GET_ZM as a pair, used by the encoder dimension checks. -/
def Lwflags.zm (f : Lwflags) : Bool × Bool := (f.z, f.m)

/-- lwflags_uses_extended_flags (gserialized2.c:76): any flag outside the
    core Z/M/BBOX/GEODETIC set; of the extended bits only SOLID is modelled. -/
def lwflags_uses_extended_flags (f : Lwflags) : Bool := f.solid

/-- POINTARRAY: dimensional flags, declared point count and the flat
    coordinate buffer (npoints * ndims doubles when well-formed). -/
structure PtArray where
  z : Bool
  m : Bool
  npoints : Nat
  data : List ℚ
deriving DecidableEq, Repr

/-- FLAGS_NDIMS of a point array's flags. -/
def PtArray.ndims (pa : PtArray) : Nat :=
  2 + (cond pa.z 1 0) + (cond pa.m 1 0)

/-- ptarray_point_size: bytes per point. -/
def ptarray_point_size (pa : PtArray) : Nat := 8 * pa.ndims

/-- Well-formedness of a POINTARRAY: buffer holds exactly
    npoints * ndims doubles. -/
def PtArray.wf (pa : PtArray) : Bool := pa.data.length = pa.npoints * pa.ndims

/-- ptarray_construct_empty with given dimensions (no points). -/
def ptarray_construct_empty (z m : Bool) : PtArray :=
  { z := z, m := m, npoints := 0, data := [] }

/-- A 4-ordinate point as produced by getPoint4d_p. -/
structure Point4D where
  x : ℚ
  y : ℚ
  z : ℚ
  m : ℚ
deriving DecidableEq, Repr

/-- getPoint4d_p: reads point i of the array; absent Z/M ordinates read as 0. -/
def getPoint4d (pa : PtArray) (i : Nat) : Point4D :=
  let nd := pa.ndims
  { x := pa.data.getD (i * nd) 0
    y := pa.data.getD (i * nd + 1) 0
    z := if pa.z then pa.data.getD (i * nd + 2) 0 else 0
    m := if pa.m then pa.data.getD (i * nd + 2 + cond pa.z 1 0) 0 else 0 }

/-- ptarray_append_point: appends the ordinates of a POINT4D that are active
    in the target array. -/
def ptarray_append_point (pa : PtArray) (p : Point4D) : PtArray :=
  { pa with
    npoints := pa.npoints + 1
    data := pa.data ++ ([p.x, p.y] ++ (if pa.z then [p.z] else [])
                        ++ (if pa.m then [p.m] else [])) }

/- ********************************************************************
   NURBS knot synthesis (src/liblwgeom/lwgeom_nurbs.c)
   ******************************************************************** -/

/-- Value stored at position i of the generated uniform knot array: the three
    fill loops of lwnurbscurve_generate_uniform_knots write 0.0 at positions
    0..degree, 1.0 at positions nknots-degree-1..nknots-1 (disjoint from the
    first range since npoints ≥ degree+1), and (j+1)/(internal+1) at interior
    position degree+1+j, where nknots = npoints+degree+1 and
    internal = nknots - 2*(degree+1). -/
def uniformKnotEntry (degree npoints i : Nat) : ℚ :=
  if i ≤ degree then 0
  else if npoints + degree + 1 - degree - 1 ≤ i then 1
  else (((i - degree : Nat) : ℚ)) /
    (((npoints + degree + 1 - 2 * (degree + 1) : Nat) : ℚ) + 1)

/-- lwnurbscurve_generate_uniform_knots (lwgeom_nurbs.c:223-264): clamped
    uniform knot vector of length npoints+degree+1; returns none (no knots)
    when degree = 0 or npoints < degree + 1. -/
def lwnurbscurve_generate_uniform_knots (degree npoints : Nat) :
    Option (List ℚ) :=
  if degree = 0 ∨ npoints < degree + 1 then none
  else
    some (List.ofFn (fun i : Fin (npoints + degree + 1) =>
      uniformKnotEntry degree npoints i))

/-- C6: for degree p in [1,10]: with n < p+1 control points the synthesis
    yields no knots; with n ≥ p+1 it yields n+p+1 knots whose first p+1
    entries are 0, whose last p+1 entries are 1, and whose interior entry
    at index p+i is i/(K+1) for i = 1..K where K = n-p-1. -/
theorem c6_uniform_knot_synthesis (p n : Nat) (hp1 : 1 ≤ p) (hp10 : p ≤ 10) :
    (n < p + 1 → lwnurbscurve_generate_uniform_knots p n = none) ∧
    (p + 1 ≤ n → ∃ ks, lwnurbscurve_generate_uniform_knots p n = some ks ∧
      ks.length = n + p + 1 ∧
      (∀ i, i < p + 1 → ks.get? i = some 0) ∧
      (∀ i, n ≤ i → i < n + p + 1 → ks.get? i = some 1) ∧
      (∀ i, 1 ≤ i → i ≤ n - (p + 1) →
        ks.get? (p + i) = some ((i : ℚ) / (((n - (p + 1) : Nat) : ℚ) + 1)))) := by
  constructor
  · intro hlt
    rw [lwnurbscurve_generate_uniform_knots, if_pos (Or.inr hlt)]
  · intro hge
    have heq : lwnurbscurve_generate_uniform_knots p n =
        some (List.ofFn (fun i : Fin (n + p + 1) => uniformKnotEntry p n i)) := by
      rw [lwnurbscurve_generate_uniform_knots, if_neg (by omega)]
    refine ⟨_, heq, ?_, ?_, ?_, ?_⟩
    · simp
    · intro i hi
      rw [List.get?_ofFn, List.ofFnNthVal, dif_pos (by omega)]
      have h0 : i ≤ p := by omega
      simp [uniformKnotEntry, h0]
    · intro i hni hilt
      rw [List.get?_ofFn, List.ofFnNthVal, dif_pos (by omega)]
      have h1 : ¬ (i ≤ p) := by omega
      have h2 : n + p + 1 - p - 1 ≤ i := by omega
      simp [uniformKnotEntry, h1, h2]
    · intro i h1i hiK
      rw [List.get?_ofFn, List.ofFnNthVal, dif_pos (by omega)]
      have h1 : ¬ (p + i ≤ p) := by omega
      have h2 : ¬ (n + p + 1 - p - 1 ≤ p + i) := by omega
      have h3 : (p + i - p : Nat) = i := by omega
      have h4 : (n + p + 1 - 2 * (p + 1) : Nat) = n - (p + 1) := by omega
      simp only [uniformKnotEntry, h1, if_false, h2, h3, h4]

/-- C6 witness: degree 2 with 4 control points yields the 7-knot vector
    [0,0,0,1/2,1,1,1]. -/
theorem c6_uniform_knot_synthesis_witness :
    ∃ ks, lwnurbscurve_generate_uniform_knots 2 4 = some ks ∧
      ks.length = 4 + 2 + 1 ∧
      (∀ i, i < 2 + 1 → ks.get? i = some 0) ∧
      (∀ i, 4 ≤ i → i < 4 + 2 + 1 → ks.get? i = some 1) ∧
      (∀ i, 1 ≤ i → i ≤ 4 - (2 + 1) →
        ks.get? (2 + i) = some ((i : ℚ) / (((4 - (2 + 1) : Nat) : ℚ) + 1))) :=
  (c6_uniform_knot_synthesis 2 4 (by decide) (by decide)).2 (by decide)

/- ********************************************************************
   NURBS curves (src/liblwgeom/lwgeom_nurbs.c)
   ******************************************************************** -/

/-- GBOX: per-dimension bounds plus the flags describing which are active. -/
structure GBox where
  flags : Lwflags
  xmin : ℚ
  xmax : ℚ
  ymin : ℚ
  ymax : ℚ
  zmin : ℚ
  zmax : ℚ
  mmin : ℚ
  mmax : ℚ
deriving DecidableEq, Repr

/-- LWNURBSCURVE: srid, dimensional flags (FLAGS_GET_Z/M of curve->flags),
    optional bbox, degree, optional control points, optional weights and
    knots with their separately stored counts, exactly as the C struct. -/
structure LWNurbsCurve where
  srid : Int
  hasz : Bool
  hasm : Bool
  bbox : Option GBox
  degree : Nat
  points : Option PtArray
  weights : Option (List ℚ)
  nweights : Nat
  knots : Option (List ℚ)
  nknots : Nat
deriving DecidableEq, Repr

/-- The weights-count invariant check of lwnurbscurve_construct
    (lwgeom_nurbs.c:71): an lwerror is raised when points and weights are
    both provided and nweights differs from the point count. -/
def constructWeightsBad (points : Option PtArray) (weights : Option (List ℚ))
    (nweights : Nat) : Bool :=
  match points, weights with
  | some pa, some _ => nweights != pa.npoints
  | _, _ => false

/-- The knots-count invariant check of lwnurbscurve_construct
    (lwgeom_nurbs.c:73). -/
def constructKnotsBad (points : Option PtArray) (knots : Option (List ℚ))
    (nknots degree : Nat) : Bool :=
  match points, knots with
  | some pa, some _ => nknots != pa.npoints + degree + 1
  | _, _ => false

/-- lwnurbscurve_construct (lwgeom_nurbs.c:60-112).  Returns none when the
    degree is outside [1,10] (C returns NULL) or when one of the count
    invariants fails (C raises lwerror, which does not return).  Otherwise
    builds the curve: flags inherited from the points (0 when points are
    NULL), points moved in, weights/knots deep-copied only when provided
    with a positive count (the memcpy copies nweights/nknots entries,
    modelled with List.take). -/
def lwnurbscurve_construct (srid : Int) (bbox : Option GBox) (degree : Nat)
    (points : Option PtArray) (weights knots : Option (List ℚ))
    (nweights nknots : Nat) : Option LWNurbsCurve :=
  if degree < 1 ∨ 10 < degree then none
  else if constructWeightsBad points weights nweights then none
  else if constructKnotsBad points knots nknots degree then none
  else some
    { srid := srid
      hasz := (points.map PtArray.z).getD false
      hasm := (points.map PtArray.m).getD false
      bbox := bbox
      degree := degree
      points := points
      weights :=
        match weights with
        | some w => if 0 < nweights then some (w.take nweights) else none
        | none => none
      nweights := nweights
      knots :=
        match knots with
        | some k => if 0 < nknots then some (k.take nknots) else none
        | none => none
      nknots := nknots }

/-- lwnurbscurve_construct_empty (lwgeom_nurbs.c:126-141). -/
def lwnurbscurve_construct_empty (srid : Int) (hasz hasm : Bool) :
    LWNurbsCurve :=
  { srid := srid, hasz := hasz, hasm := hasm, bbox := none, degree := 1
    points := some (ptarray_construct_empty hasz hasm)
    weights := none, nweights := 0, knots := none, nknots := 0 }

/-- lwnurbscurve_get_knots_for_wkb (lwgeom_nurbs.c:281-300): deep copy of the
    explicit knot vector when present with a positive count (the memcpy
    copies nknots entries), otherwise a generated uniform vector; none when
    the curve has no control-point array. -/
def lwnurbscurve_get_knots_for_wkb (c : LWNurbsCurve) : Option (List ℚ) :=
  match c.points with
  | none => none
  | some pa =>
    match c.knots with
    | some k =>
      if 0 < c.nknots then some (k.take c.nknots)
      else lwnurbscurve_generate_uniform_knots c.degree pa.npoints
    | none => lwnurbscurve_generate_uniform_knots c.degree pa.npoints

/-- Bounds-guarded knot access: the C basis function only dereferences
    indices it has bounds-checked, so the out-of-range default is never
    observable. -/
def knotAt (knots : List ℚ) (i : Int) : ℚ :=
  if 0 ≤ i ∧ i < (knots.length : Int) then knots.getD i.toNat 0 else 0

/-- lwnurbscurve_basis_function (lwgeom_nurbs.c:369-395): Cox-de-Boor
    recursion; each term vanishes when its denominator is zero. -/
def lwnurbscurve_basis_function (i : Int) (p : Nat) (u : ℚ)
    (knots : List ℚ) : ℚ :=
  if i < 0 ∨ (knots.length : Int) ≤ i + p + 1 then 0
  else
    match p with
    | 0 => if knotAt knots i ≤ u ∧ u < knotAt knots (i + 1) then 1 else 0
    | q + 1 =>
      let denom1 := knotAt knots (i + (q + 1)) - knotAt knots i
      let term1 :=
        if denom1 ≠ 0 then
          (u - knotAt knots i) / denom1 * lwnurbscurve_basis_function i q u knots
        else 0
      let denom2 := knotAt knots (i + (q + 1) + 1) - knotAt knots (i + 1)
      let term2 :=
        if denom2 ≠ 0 then
          (knotAt knots (i + (q + 1) + 1) - u) / denom2 *
            lwnurbscurve_basis_function (i + 1) q u knots
        else 0
      term1 + term2

/-- LWPOINT: srid, dimensional flags and the single-point array. -/
structure LWPoint where
  srid : Int
  hasz : Bool
  hasm : Bool
  point : PtArray
deriving DecidableEq, Repr

/-- lwpoint_construct_empty. -/
def lwpoint_construct_empty (srid : Int) (hasz hasm : Bool) : LWPoint :=
  { srid := srid, hasz := hasz, hasm := hasm
    point := ptarray_construct_empty hasz hasm }

/-- The create_result tail of lwnurbscurve_evaluate (lwgeom_nurbs.c:482-485):
    lwpoint_construct on an empty array of the curve's dimensions, then
    ptarray_append_point of the computed POINT4D. -/
def evalResultPoint (c : LWNurbsCurve) (p4 : Point4D) : LWPoint :=
  { srid := c.srid, hasz := c.hasz, hasm := c.hasm
    point := ptarray_append_point (ptarray_construct_empty c.hasz c.hasm) p4 }

/-- Per-control-point weight used by the evaluation loop
    (lwgeom_nurbs.c:456): curve->weights[i] when weights are present and
    i < nweights, else 1.0. -/
def evalWeight (c : LWNurbsCurve) (i : Nat) : ℚ :=
  match c.weights with
  | some ws => if i < c.nweights then ws.getD i 0 else 1
  | none => 1

/-- Accumulator state of the evaluation loop: x, y, z, m sums and the
    rational denominator. -/
structure EvalAcc where
  x : ℚ
  y : ℚ
  z : ℚ
  m : ℚ
  denom : ℚ
deriving Repr

/-- One iteration of the evaluation summation loop (lwgeom_nurbs.c:446-465). -/
def evalStep (c : LWNurbsCurve) (pa : PtArray) (ks : List ℚ) (t : ℚ)
    (a : EvalAcc) (i : Nat) : EvalAcc :=
  let cp := getPoint4d pa i
  let N := lwnurbscurve_basis_function (i : Int) c.degree t ks
  let w := evalWeight c i
  let wN := w * N
  { x := a.x + wN * cp.x
    y := a.y + wN * cp.y
    z := if c.hasz then a.z + wN * cp.z else a.z
    m := if c.hasm then a.m + wN * cp.m else a.m
    denom := a.denom + wN }

/-- lwnurbscurve_evaluate (lwgeom_nurbs.c:408-486). -/
def lwnurbscurve_evaluate (c : LWNurbsCurve) (t : ℚ) : LWPoint :=
  match c.points with
  | none => lwpoint_construct_empty SRID_UNKNOWN false false
  | some pa =>
    if pa.npoints = 0 then lwpoint_construct_empty SRID_UNKNOWN false false
    else if t ≤ 0 then evalResultPoint c (getPoint4d pa 0)
    else if 1 ≤ t then evalResultPoint c (getPoint4d pa (pa.npoints - 1))
    else
      match lwnurbscurve_get_knots_for_wkb c with
      | none => lwpoint_construct_empty c.srid c.hasz c.hasm
      | some ks =>
        if ks.length = 0 then lwpoint_construct_empty c.srid c.hasz c.hasm
        else
          let a := (List.range pa.npoints).foldl
            (evalStep c pa ks t) ⟨0, 0, 0, 0, 0⟩
          let rational := c.weights.isSome ∧ a.denom ≠ 0
          let x := if rational then a.x / a.denom else a.x
          let y := if rational then a.y / a.denom else a.y
          let z := if rational ∧ c.hasz = true then a.z / a.denom else a.z
          let m := if rational ∧ c.hasm = true then a.m / a.denom else a.m
          evalResultPoint c
            { x := x, y := y
              z := if c.hasz then z else 0
              m := if c.hasm then m else 0 }

/-- C7: lwnurbscurve_construct (with control points provided) rejects every
    degree outside [1,10], every provided-weights count differing from the
    point count, and every provided-knots count differing from
    npoints+degree+1; on all other inputs it returns the curve holding the
    given degree, the moved-in points, and deep copies of the provided
    weights and knots. -/
theorem c7_construct_validation (srid : Int) (bbox : Option GBox)
    (degree : Nat) (pa : PtArray) (weights knots : Option (List ℚ))
    (nweights nknots : Nat) :
    ((degree < 1 ∨ 10 < degree) →
      lwnurbscurve_construct srid bbox degree (some pa) weights knots
        nweights nknots = none) ∧
    (weights.isSome → nweights ≠ pa.npoints →
      lwnurbscurve_construct srid bbox degree (some pa) weights knots
        nweights nknots = none) ∧
    (knots.isSome → nknots ≠ pa.npoints + degree + 1 →
      lwnurbscurve_construct srid bbox degree (some pa) weights knots
        nweights nknots = none) ∧
    (1 ≤ degree → degree ≤ 10 →
      (weights.isSome → nweights = pa.npoints) →
      (knots.isSome → nknots = pa.npoints + degree + 1) →
      lwnurbscurve_construct srid bbox degree (some pa) weights knots
        nweights nknots = some
        { srid := srid, hasz := pa.z, hasm := pa.m, bbox := bbox
          degree := degree, points := some pa
          weights :=
            match weights with
            | some w => if 0 < nweights then some (w.take nweights) else none
            | none => none
          nweights := nweights
          knots :=
            match knots with
            | some k => if 0 < nknots then some (k.take nknots) else none
            | none => none
          nknots := nknots }) := by
  refine ⟨?_, ?_, ?_, ?_⟩
  · intro h
    rw [lwnurbscurve_construct.eq_def, if_pos h]
  · intro hw hne
    obtain ⟨w, rfl⟩ := Option.isSome_iff_exists.mp hw
    by_cases hd : degree < 1 ∨ 10 < degree
    · rw [lwnurbscurve_construct.eq_def, if_pos hd]
    · rw [lwnurbscurve_construct.eq_def, if_neg hd,
        if_pos (by simp [constructWeightsBad, hne])]
  · intro hk hne
    obtain ⟨k, rfl⟩ := Option.isSome_iff_exists.mp hk
    by_cases hd : degree < 1 ∨ 10 < degree
    · rw [lwnurbscurve_construct.eq_def, if_pos hd]
    · by_cases hwb : constructWeightsBad (some pa) weights nweights = true
      · rw [lwnurbscurve_construct.eq_def, if_neg hd, if_pos hwb]
      · rw [lwnurbscurve_construct.eq_def, if_neg hd, if_neg hwb,
          if_pos (by simp [constructKnotsBad, hne])]
  · intro hd1 hd2 hwlen hklen
    have hd : ¬ (degree < 1 ∨ 10 < degree) := by omega
    have hwb : constructWeightsBad (some pa) weights nweights = false := by
      cases weights with
      | none => rfl
      | some w =>
        have := hwlen (by rfl)
        simp [constructWeightsBad, this]
    have hkb : constructKnotsBad (some pa) knots nknots degree = false := by
      cases knots with
      | none => rfl
      | some k =>
        have := hklen (by rfl)
        simp [constructKnotsBad, this]
    rw [lwnurbscurve_construct.eq_def, if_neg hd,
      if_neg (by simp [hwb]), if_neg (by simp [hkb])]
    rfl

/-- C7 witness: degree 2, three 2-D control points, weights [1,2,1] and no
    knots are accepted and stored. -/
theorem c7_construct_validation_witness :
    lwnurbscurve_construct 4326 none 2
      (some { z := false, m := false, npoints := 3
              data := [0, 0, 1, 1, 2, 0] })
      (some [1, 2, 1]) none 3 0 = some
      { srid := 4326, hasz := false, hasm := false, bbox := none
        degree := 2
        points := some { z := false, m := false, npoints := 3
                         data := [0, 0, 1, 1, 2, 0] }
        weights := some [1, 2, 1], nweights := 3
        knots := none, nknots := 0 } := by
  have h := (c7_construct_validation 4326 none 2
    { z := false, m := false, npoints := 3, data := [0, 0, 1, 1, 2, 0] }
    (some [1, 2, 1]) none 3 0).2.2.2
    (by decide) (by decide) (fun _ => rfl) (by intro h; cases h)
  simpa using h

/-- C5 (amended): evaluating a NURBS curve whose control-point array is
    absent or empty returns, at every parameter t, the empty point with
    UNKNOWN srid and no Z/M flags (not the curve's own srid/dimensions). -/
theorem c5_eval_empty_curve (c : LWNurbsCurve) (t : ℚ)
    (h : c.points = none ∨ ∃ pa, c.points = some pa ∧ pa.npoints = 0) :
    lwnurbscurve_evaluate c t =
      lwpoint_construct_empty SRID_UNKNOWN false false := by
  rcases h with h | ⟨pa, hpa, hnp⟩
  · simp [lwnurbscurve_evaluate, h]
  · simp [lwnurbscurve_evaluate, hpa, hnp]

/-- C5 witness: an empty XYZ curve with srid 4326 evaluated at 1/2. -/
theorem c5_eval_empty_curve_witness :
    lwnurbscurve_evaluate (lwnurbscurve_construct_empty 4326 true false)
      (1/2) = lwpoint_construct_empty SRID_UNKNOWN false false :=
  c5_eval_empty_curve (lwnurbscurve_construct_empty 4326 true false) (1/2)
    (Or.inr ⟨ptarray_construct_empty true false, rfl, rfl⟩)

/-- C5 counterexample: the claim says the empty result carries the curve's
    srid and Z-flag; for the empty XYZ curve with srid 4326 it does not. -/
theorem c5_counterexample :
    ¬ ((lwnurbscurve_evaluate (lwnurbscurve_construct_empty 4326 true false)
          (1/2)).srid = 4326 ∧
       (lwnurbscurve_evaluate (lwnurbscurve_construct_empty 4326 true false)
          (1/2)).hasz = true) := by
  decide

/-- C9: a curve with no stored knots and 1 ≤ npoints < degree+1 evaluates
    to the empty point (with the curve's srid and dimensions) at every
    0 < t < 1, because knot synthesis yields no knots, while t ≤ 0 and
    t ≥ 1 still return the first and last control point. -/
theorem c9_eval_underdetermined (c : LWNurbsCurve) (pa : PtArray) (t : ℚ)
    (hpa : c.points = some pa) (h1 : 1 ≤ pa.npoints)
    (h2 : pa.npoints < c.degree + 1) (hk : c.knots = none) :
    (0 < t → t < 1 →
      lwnurbscurve_evaluate c t =
        lwpoint_construct_empty c.srid c.hasz c.hasm) ∧
    (t ≤ 0 →
      lwnurbscurve_evaluate c t = evalResultPoint c (getPoint4d pa 0)) ∧
    (1 ≤ t →
      lwnurbscurve_evaluate c t =
        evalResultPoint c (getPoint4d pa (pa.npoints - 1))) := by
  have hnp : ¬ (pa.npoints = 0) := by omega
  have hgen : lwnurbscurve_generate_uniform_knots c.degree pa.npoints = none := by
    rw [lwnurbscurve_generate_uniform_knots, if_pos (Or.inr h2)]
  refine ⟨?_, ?_, ?_⟩
  · intro ht0 ht1
    have hle : ¬ (t ≤ 0) := by linarith
    have hge : ¬ (1 ≤ t) := by linarith
    simp [lwnurbscurve_evaluate, hpa, hnp, hle, hge,
      lwnurbscurve_get_knots_for_wkb, hk, hgen]
  · intro ht
    simp [lwnurbscurve_evaluate, hpa, hnp, ht]
  · intro ht
    have hle : ¬ (t ≤ 0) := by linarith
    simp [lwnurbscurve_evaluate, hpa, hnp, hle, ht]

/-- C9 witness: degree-2 curve with a single control point (3,4), no knots:
    evaluation at 1/2 is empty, at 0 and 1 it is the control point. -/
theorem c9_eval_underdetermined_witness :
    (lwnurbscurve_evaluate
        { srid := 7, hasz := false, hasm := false, bbox := none, degree := 2
          points := some { z := false, m := false, npoints := 1, data := [3, 4] }
          weights := none, nweights := 0, knots := none, nknots := 0 }
        (1/2) = lwpoint_construct_empty 7 false false) ∧
    (lwnurbscurve_evaluate
        { srid := 7, hasz := false, hasm := false, bbox := none, degree := 2
          points := some { z := false, m := false, npoints := 1, data := [3, 4] }
          weights := none, nweights := 0, knots := none, nknots := 0 }
        0 = evalResultPoint
        { srid := 7, hasz := false, hasm := false, bbox := none, degree := 2
          points := some { z := false, m := false, npoints := 1, data := [3, 4] }
          weights := none, nweights := 0, knots := none, nknots := 0 }
        (getPoint4d { z := false, m := false, npoints := 1, data := [3, 4] } 0)) := by
  have h := c9_eval_underdetermined
    { srid := 7, hasz := false, hasm := false, bbox := none, degree := 2
      points := some { z := false, m := false, npoints := 1, data := [3, 4] }
      weights := none, nweights := 0, knots := none, nknots := 0 }
    { z := false, m := false, npoints := 1, data := [3, 4] }
  exact ⟨(h (1/2) rfl (by decide) (by decide) rfl).1 (by norm_num) (by norm_num),
    (h 0 rfl (by decide) (by decide) rfl).2.1 (by norm_num)⟩

/- ********************************************************************
   WKB writer, NURBS part (src/unnamed/part_000)
   ******************************************************************** -/

/-- WKB variant bit flags (WKB_ISO / WKB_EXTENDED / WKB_SFSQL / WKB_NDR /
    WKB_HEX / WKB_NO_SRID). -/
structure WkbVariant where
  iso : Bool
  extended : Bool
  sfsql : Bool
  ndr : Bool
  hex : Bool
  noSrid : Bool
deriving DecidableEq, Repr

/-- One WKB field: an endian/flag byte, a 4-byte integer, or an 8-byte
    double.  HEX mode doubles the character width of every field and
    NDR/XDR fixes the byte order inside a field; neither changes the field
    sequence, which is what the knot-count claim is about. -/
inductive WkbTok where
| byte (b : Nat)
| word (n : Int)
| dbl (q : ℚ)
deriving DecidableEq, Repr

/-- endian_to_wkb_buf: the endian marker byte (1 = NDR, 0 = XDR). -/
def endianTok (v : WkbVariant) : WkbTok :=
  .byte (if v.ndr then 1 else 0)

/-- WKB_NURBSCURVE_TYPE: the reserved WKB numeric code for NURBS curves
    (liblwgeom.h, not in src/; no claim depends on the numeral). -/
def WKB_NURBSCURVE_TYPE : Nat := 16

/-- lwgeom_wkb_needs_srid (part_000:64-78) specialised to a NURBS curve:
    an SRID is emitted iff the variant is EXTENDED, the geometry has a
    known SRID, and WKB_NO_SRID is not set.  lwgeom_has_srid (not in src/)
    is srid != SRID_UNKNOWN. -/
def nurbsWkbNeedsSrid (c : LWNurbsCurve) (v : WkbVariant) : Bool :=
  if v.noSrid then false
  else if v.extended && decide (c.srid ≠ SRID_UNKNOWN) then true
  else false

/-- lwgeom_wkb_type for a NURBSCURVETYPE geometry (part_000:110-111 and
    156-165): always the ISO dimension offsets regardless of variant. -/
def nurbsWkbType (c : LWNurbsCurve) : Nat :=
  if c.hasz && !c.hasm then WKB_NURBSCURVE_TYPE + 1000
  else if c.hasm && !c.hasz then WKB_NURBSCURVE_TYPE + 2000
  else if c.hasz && c.hasm then WKB_NURBSCURVE_TYPE + 3000
  else WKB_NURBSCURVE_TYPE

/-- The per-control-point block of lwnurbscurve_to_wkb_buf
    (part_000:879-906): per-point endian byte, the dims coordinates, a
    weight-presence byte, and the weight only when it is present and
    differs from the default 1.0. -/
def nurbsWkbPointToks (c : LWNurbsCurve) (pa : PtArray) (v : WkbVariant)
    (i : Nat) : List WkbTok :=
  let coords := (List.range pa.ndims).map
    (fun d => WkbTok.dbl (pa.data.getD (i * pa.ndims + d) 0))
  let hasWeight :=
    match c.weights with
    | some ws => decide (i < c.nweights) && decide (ws.getD i 0 ≠ 1)
    | none => false
  endianTok v :: coords ++ [WkbTok.byte (cond hasWeight 1 0)]
    ++ (if hasWeight then
          [WkbTok.dbl ((c.weights.getD []).getD i 0)] else [])

/-- The knot block of lwnurbscurve_to_wkb_buf (part_000:908-922): knot
    count then the knot doubles when lwnurbscurve_get_knots_for_wkb
    returns knots, otherwise the fallback zero count. -/
def nurbsWkbKnotToks (c : LWNurbsCurve) : List WkbTok :=
  match lwnurbscurve_get_knots_for_wkb c with
  | some ks =>
    if 0 < ks.length then
      WkbTok.word (ks.length : Int) :: ks.map WkbTok.dbl
    else [WkbTok.word 0]
  | none => [WkbTok.word 0]

/-- lwnurbscurve_to_wkb_buf (part_000:853-925): endian byte, type word,
    optional SRID word, degree, control-point count, the per-point blocks,
    then the knot block. -/
def lwnurbscurve_to_wkb_buf (c : LWNurbsCurve) (v : WkbVariant) :
    List WkbTok :=
  let npoints : Nat := match c.points with | some pa => pa.npoints | none => 0
  [endianTok v, WkbTok.word (nurbsWkbType c : Int)]
  ++ (if nurbsWkbNeedsSrid c v then [WkbTok.word c.srid] else [])
  ++ [WkbTok.word (c.degree : Int), WkbTok.word (npoints : Int)]
  ++ (match c.points with
      | some pa => (List.range npoints).map (nurbsWkbPointToks c pa v) |>.flatten
      | none => [])
  ++ nurbsWkbKnotToks c

/-- C4 (amended): the knot block emitted by the NURBS WKB writer carries
    the stored knot count when explicit knots are present; when knots are
    absent it carries npoints+degree+1 synthesized knots whenever
    npoints ≥ degree+1, but the fallback zero knot count whenever
    npoints < degree+1 (so knots can be omitted on the wire for a curve
    with at least one control point). -/
theorem c4_wkb_knot_emission (c : LWNurbsCurve) (pa : PtArray)
    (v : WkbVariant) (hpa : c.points = some pa) :
    (∃ pre, lwnurbscurve_to_wkb_buf c v = pre ++ nurbsWkbKnotToks c) ∧
    (∀ k, c.knots = some k → k.length = c.nknots → 0 < c.nknots →
      nurbsWkbKnotToks c =
        WkbTok.word (c.nknots : Int) :: (k.map WkbTok.dbl)) ∧
    (c.knots = none → 1 ≤ c.degree → c.degree + 1 ≤ pa.npoints →
      ∃ ks, lwnurbscurve_get_knots_for_wkb c = some ks ∧
        ks.length = pa.npoints + c.degree + 1 ∧
        nurbsWkbKnotToks c =
          WkbTok.word ((pa.npoints + c.degree + 1 : Nat) : Int)
            :: (ks.map WkbTok.dbl)) ∧
    (c.knots = none → pa.npoints < c.degree + 1 →
      nurbsWkbKnotToks c = [WkbTok.word 0]) := by
  refine ⟨⟨_, rfl⟩, ?_, ?_, ?_⟩
  · intro k hk hlen hpos
    have htake : k.take c.nknots = k := by
      rw [← hlen]
      exact List.take_length k
    have hget : lwnurbscurve_get_knots_for_wkb c = some k := by
      simp [lwnurbscurve_get_knots_for_wkb, hpa, hk, hpos, htake]
    simp [nurbsWkbKnotToks, hget, hlen, hpos]
  · intro hk hd hn
    have hgen : lwnurbscurve_generate_uniform_knots c.degree pa.npoints =
        some (List.ofFn (fun i : Fin (pa.npoints + c.degree + 1) =>
          uniformKnotEntry c.degree pa.npoints i)) := by
      rw [lwnurbscurve_generate_uniform_knots, if_neg (by omega)]
    have hget : lwnurbscurve_get_knots_for_wkb c =
        some (List.ofFn (fun i : Fin (pa.npoints + c.degree + 1) =>
          uniformKnotEntry c.degree pa.npoints i)) := by
      simp [lwnurbscurve_get_knots_for_wkb, hpa, hk, hgen]
    refine ⟨_, hget, by simp, ?_⟩
    simp [nurbsWkbKnotToks, hget]
  · intro hk hn
    have hgen : lwnurbscurve_generate_uniform_knots c.degree pa.npoints
        = none := by
      rw [lwnurbscurve_generate_uniform_knots, if_pos (Or.inr hn)]
    have hget : lwnurbscurve_get_knots_for_wkb c = none := by
      simp [lwnurbscurve_get_knots_for_wkb, hpa, hk, hgen]
    simp [nurbsWkbKnotToks, hget]

/-- C4 witness: degree-2 curve, three control points, no stored knots:
    the writer emits the 6-knot clamped uniform vector. -/
theorem c4_wkb_knot_emission_witness :
    nurbsWkbKnotToks
      { srid := 0, hasz := false, hasm := false, bbox := none, degree := 2
        points := some { z := false, m := false, npoints := 3
                         data := [0, 0, 1, 1, 2, 0] }
        weights := none, nweights := 0, knots := none, nknots := 0 } =
      WkbTok.word ((3 + 2 + 1 : Nat) : Int) ::
        ([0, 0, 0, 1, 1, 1].map WkbTok.dbl) := by
  have h := (c4_wkb_knot_emission
    { srid := 0, hasz := false, hasm := false, bbox := none, degree := 2
      points := some { z := false, m := false, npoints := 3
                       data := [0, 0, 1, 1, 2, 0] }
      weights := none, nweights := 0, knots := none, nknots := 0 }
    { z := false, m := false, npoints := 3, data := [0, 0, 1, 1, 2, 0] }
    { iso := true, extended := false, sfsql := false, ndr := true
      hex := false, noSrid := false }
    rfl).2.2.1 rfl (by decide) (by decide)
  obtain ⟨ks, hks, hlen, hemit⟩ := h
  rw [hemit]
  have : ks = [0, 0, 0, 1, 1, 1] := by
    have h2 : some ks = some [0, 0, 0, 1, 1, 1] := by
      rw [← hks]; decide
    exact Option.some.inj h2
  rw [this]

/-- C4 counterexample: a degree-2 curve with one control point and no
    stored knots emits a zero knot count, not npoints+degree+1 = 4. -/
theorem c4_counterexample :
    nurbsWkbKnotToks
      { srid := 0, hasz := false, hasm := false, bbox := none, degree := 2
        points := some { z := false, m := false, npoints := 1, data := [3, 4] }
        weights := none, nweights := 0, knots := none, nknots := 0 } =
      [WkbTok.word 0] ∧ (0 : Int) ≠ ((1 + 2 + 1 : Nat) : Int) := by
  constructor
  · decide
  · decide

/- ********************************************************************
   Float32 outward rounding (next_float_down / next_float_up live in
   lwgeom_api.c, which is not part of src/; modelled from the spec)
   ******************************************************************** -/

/-- The rational power 2^e for an integer e, written with mkRat so that it
    evaluates by machine Nat arithmetic. -/
def qpow2 (e : Int) : ℚ :=
  if 0 ≤ e then mkRat (Int.ofNat (Nat.pow 2 e.toNat)) 1
  else mkRat 1 (Nat.pow 2 (-e).toNat)

/-- The absolute value of a rational, written out as a conditional. -/
def qabs (q : ℚ) : ℚ := if q < 0 then -q else q

/-- Fuel-driven integer log2 (the fuel bounds the halving steps; called
    with fuel = n it equals Nat.log2 n). -/
def natLog2 : Nat → Nat → Nat
  | 0, _ => 0
  | fuel + 1, n => if n ≥ 2 then natLog2 fuel (n / 2) + 1 else 0

/-- Floor of log2 of |q| for a nonzero rational, computed from the integer
    log2 of numerator and denominator with a two-sided correction. -/
def qlog2 (q : ℚ) : Int :=
  let a := q.num.natAbs
  let b := q.den
  let c : Int := (natLog2 a a : Int) - (natLog2 b b : Int)
  if qpow2 (c + 1) ≤ qabs q then c + 1
  else if qpow2 c ≤ qabs q then c
  else c - 1

/-- Float32 unit-in-the-last-place at binade exponent e, floored at the
    subnormal spacing 2^(-149). -/
def f32ulpAt (e : Int) : ℚ :=
  qpow2 (if e - 23 < -149 then -149 else e - 23)

/-- Smallest float32 value strictly greater than a positive rational q:
    the next point of the ulp grid of q's binade. -/
def f32succPos (q : ℚ) : ℚ :=
  let u := f32ulpAt (qlog2 q)
  mkRat (Rat.floor (q / u) + 1) 1 * u

/-- Largest float32 value strictly smaller than a positive rational q;
    at an exact power of two the spacing of the binade below applies. -/
def f32predPos (q : ℚ) : ℚ :=
  let e := qlog2 q
  if q = qpow2 e then q - f32ulpAt (e - 1)
  else mkRat (Rat.ceil (q / f32ulpAt e) - 1) 1 * f32ulpAt e

/-- Modelled from the spec: next_float_up (lwgeom_api.c, not in src/) — "the
    next representable float in the outward direction, not equal to input". -/
def next_float_up (q : ℚ) : ℚ :=
  if q = 0 then qpow2 (-149)
  else if 0 < q then f32succPos q
  else -(f32predPos (-q))

/-- Modelled from the spec: next_float_down (lwgeom_api.c, not in src/) —
    the next representable float strictly below the input. -/
def next_float_down (q : ℚ) : ℚ :=
  if q = 0 then -(qpow2 (-149))
  else if 0 < q then f32predPos q
  else -(f32succPos (-q))

/-- Modelled from the spec: gbox_float_round (gbox.c, not in src/) — min
    bounds to the next float down, max bounds to the next float up, the Z
    and M pairs only when active. -/
def gbox_float_round (g : GBox) : GBox :=
  { g with
    xmin := next_float_down g.xmin
    xmax := next_float_up g.xmax
    ymin := next_float_down g.ymin
    ymax := next_float_up g.ymax
    zmin := if g.flags.z || g.flags.geodetic then next_float_down g.zmin else g.zmin
    zmax := if g.flags.z || g.flags.geodetic then next_float_up g.zmax else g.zmax
    mmin := if g.flags.m then next_float_down g.mmin else g.mmin
    mmax := if g.flags.m then next_float_up g.mmax else g.mmax }

/-- The FP_MIN macro of liblwgeom.h: (a) < (b) ? (a) : (b). -/
def fpMin (a b : ℚ) : ℚ := if a < b then a else b

/-- The FP_MAX macro of liblwgeom.h: (a) > (b) ? (a) : (b). -/
def fpMax (a b : ℚ) : ℚ := if a > b then a else b

/- ********************************************************************
   GSERIALIZED2 (src/liblwgeom/gserialized2.c): data model
   ******************************************************************** -/

/-- Internal geometry type numbers (liblwgeom.h, not in src/; the claims
    depend only on their being the distinct codes shared by the encoder,
    the decoder and the emptiness probe). -/
def POINTTYPE : Nat := 1

def LINETYPE : Nat := 2

def POLYGONTYPE : Nat := 3

def MULTIPOINTTYPE : Nat := 4

def MULTILINETYPE : Nat := 5

def MULTIPOLYGONTYPE : Nat := 6

def COLLECTIONTYPE : Nat := 7

def CIRCSTRINGTYPE : Nat := 8

def COMPOUNDTYPE : Nat := 9

def CURVEPOLYTYPE : Nat := 10

def MULTICURVETYPE : Nat := 11

def MULTISURFACETYPE : Nat := 12

def POLYHEDRALSURFACETYPE : Nat := 13

def TRIANGLETYPE : Nat := 14

def TINTYPE : Nat := 15

def NURBSCURVETYPE : Nat := 16

/-- Modelled from the spec: lwtype_is_collection (lwutil.c, not in src/) —
    true exactly for the ten multi/compound/collection types, matching the
    types the GS2 code serializes through the collection path. -/
def lwtype_is_collection (t : Nat) : Bool :=
  t = MULTIPOINTTYPE ∨ t = MULTILINETYPE ∨ t = MULTIPOLYGONTYPE ∨
  t = COLLECTIONTYPE ∨ t = CURVEPOLYTYPE ∨ t = COMPOUNDTYPE ∨
  t = MULTICURVETYPE ∨ t = MULTISURFACETYPE ∨
  t = POLYHEDRALSURFACETYPE ∨ t = TINTYPE

/-- Modelled from the spec: lwcollection_allows_subtype (lwcollection.c,
    not in src/), from the spec's collection-admissibility table. -/
def lwcollection_allows_subtype (t sub : Nat) : Bool :=
  if t = MULTIPOINTTYPE then sub = POINTTYPE
  else if t = MULTILINETYPE then sub = LINETYPE
  else if t = MULTIPOLYGONTYPE then sub = POLYGONTYPE ∨ sub = TRIANGLETYPE
  else if t = MULTICURVETYPE then
    sub = LINETYPE ∨ sub = CIRCSTRINGTYPE ∨ sub = COMPOUNDTYPE
  else if t = MULTISURFACETYPE then sub = POLYGONTYPE ∨ sub = CURVEPOLYTYPE
  else if t = CURVEPOLYTYPE then
    sub = LINETYPE ∨ sub = CIRCSTRINGTYPE ∨ sub = COMPOUNDTYPE
  else if t = COMPOUNDTYPE then sub = LINETYPE ∨ sub = CIRCSTRINGTYPE
  else if t = POLYHEDRALSURFACETYPE then sub = POLYGONTYPE
  else if t = TINTYPE then sub = TRIANGLETYPE
  else if t = COLLECTIONTYPE then true
  else false

/-- NURBS fields of an LWNURBSCURVE node inside the geometry tree (the
    srid/flags/bbox live on the node). -/
structure NurbsData where
  degree : Nat
  nweights : Nat
  nknots : Nat
  weights : Option (List ℚ)
  knots : Option (List ℚ)
  points : Option PtArray

mutual
/-- In-memory LWGEOM node: srid, flags, optional bbox and the typed body. -/
inductive LWGeom where
| mk (srid : Int) (flags : Lwflags) (bbox : Option GBox) (body : GBody)
/-- The typed payload of an LWGEOM. -/
inductive GBody where
| point (pa : PtArray)
| line (pa : PtArray)
| circ (pa : PtArray)
| tri (pa : PtArray)
| poly (rings : List PtArray)
| nurbs (nd : NurbsData)
| coll (t : Nat) (gs : GeomList)
/-- Sub-geometry list of a collection. -/
inductive GeomList where
| nil
| cons (g : LWGeom) (gs : GeomList)
end

/-- The srid of a geometry node. -/
def LWGeom.srid : LWGeom → Int
| .mk s _ _ _ => s

/-- The flags of a geometry node. -/
def LWGeom.flags : LWGeom → Lwflags
| .mk _ f _ _ => f

/-- The bbox of a geometry node. -/
def LWGeom.bbox : LWGeom → Option GBox
| .mk _ _ b _ => b

/-- The body of a geometry node. -/
def LWGeom.body : LWGeom → GBody
| .mk _ _ _ b => b

/-- Number of children in a GeomList. -/
def GeomList.length : GeomList → Nat
| .nil => 0
| .cons _ gs => gs.length + 1

/-- The internal type code written by the encoder for a body. -/
def GBody.typeCode : GBody → Nat
| .point _ => POINTTYPE
| .line _ => LINETYPE
| .circ _ => CIRCSTRINGTYPE
| .tri _ => TRIANGLETYPE
| .poly _ => POLYGONTYPE
| .nurbs _ => NURBSCURVETYPE
| .coll t _ => t

/-- One aligned slot of a GS2 payload: a 4-byte unsigned word or an 8-byte
    double.  Every GS2 payload is a sequence of such slots, with doubles
    kept 8-byte aligned by the polygon padding word. -/
inductive Atom where
| word (n : Nat)
| dbl (q : ℚ)
deriving DecidableEq, Repr

/-- Byte width of a payload slot. -/
def Atom.size : Atom → Nat
| .word _ => 4
| .dbl _ => 8

/-- Total byte count of a payload. -/
def atomsSize (l : List Atom) : Nat := (l.map Atom.size).sum

/-- The serialized GSERIALIZED v2 record: varsize, packed srid word, the
    gflags bits (Z, M, BBOX, GEODETIC, EXTENDED; version is constant 1),
    the optional extended word (only its SOLID bit is modelled), the
    optional bbox floats in storage order, and the payload slots. -/
structure GSer where
  size : Nat
  sridWord : Nat
  z : Bool
  m : Bool
  hasBbox : Bool
  geod : Bool
  ext : Bool
  extSolid : Option Bool
  bbox : Option (List ℚ)
  payload : List Atom
deriving DecidableEq, Repr

/-- Total byte count of a serialized record: 8 header bytes, 8 for the
    extended word when EXTENDED, 4 per bbox float, plus the payload. -/
def GSer.bytes (s : GSer) : Nat :=
  8 + (if s.ext then 8 else 0)
    + (match s.bbox with | some l => 4 * l.length | none => 0)
    + atomsSize s.payload

/-- gserialized2_get_lwflags (gserialized2.c:59-74). -/
def gserialized2_get_lwflags (s : GSer) : Lwflags :=
  { z := s.z, m := s.m, bbox := s.hasBbox, geodetic := s.geod
    solid := if s.ext then s.extSolid.getD false else false }

/-- gserialized2_set_srid (gserialized2.c:208-222) as the packed 21-bit
    word: SRID_UNKNOWN is stored as 0, otherwise the low 21 bits of the
    two's complement value.  clamp_srid (lwutil.c, not in src/) is the
    identity on the in-range SRIDs quantified in the claims. -/
def gserialized2_set_srid_word (srid : Int) : Nat :=
  let s := if srid = SRID_UNKNOWN then 0 else srid
  ((s % 2097152 + 2097152) % 2097152).toNat

/-- gserialized2_get_srid (gserialized2.c:191-206): sign-extend the 21-bit
    word and map 0 back to SRID_UNKNOWN. -/
def gserialized2_get_srid (w : Nat) : Int :=
  let v : Int := if w < 1048576 then (w : Int) else (w : Int) - 2097152
  if v = 0 then SRID_UNKNOWN else v

/- ********************************************************************
   GS2 sizer (gserialized2.c:642-853)
   ******************************************************************** -/

mutual
/-- gserialized2_from_any_size (gserialized2.c:799-832) with the per-type
    size helpers inlined as match arms:
    - point/line/circstring/triangle (642-719): type + count + coordinates
      at the node's FLAGS_NDIMS;
    - polygon (684-705): type + nrings + 4-byte pad when nrings is odd +
      per-ring count and coordinates;
    - collection (730-749): type + ngeoms + children;
    - nurbs (766-786): type + degree + nweights + nknots + npoints words,
      weights/knots arrays when present with positive count, coordinates. -/
def gserialized2_from_any_size : LWGeom → Nat
| .mk _ flags _ body =>
  match body with
  | .point pa => 4 + 4 + 8 * pa.npoints * flags.ndims
  | .line pa => 4 + 4 + 8 * pa.npoints * flags.ndims
  | .circ pa => 4 + 4 + 8 * pa.npoints * flags.ndims
  | .tri pa => 4 + 4 + 8 * pa.npoints * flags.ndims
  | .poly rings =>
    4 + 4 + (if rings.length % 2 = 1 then 4 else 0)
      + (rings.map (fun r => 4 + r.npoints * (8 * flags.ndims))).sum
  | .nurbs nd =>
    4 + 4 + 4 + 4 + 4
      + (match nd.weights with
         | some _ => if 0 < nd.nweights then 8 * nd.nweights else 0
         | none => 0)
      + (match nd.knots with
         | some _ => if 0 < nd.nknots then 8 * nd.nknots else 0
         | none => 0)
      + (match nd.points with
         | some pa => 8 * pa.npoints * flags.ndims
         | none => 0)
  | .coll _ gs => 4 + 4 + sizeChildren gs
/-- The child-size summation loop of gserialized2_from_lwcollection_size. -/
def sizeChildren : GeomList → Nat
| .nil => 0
| .cons g gs => gserialized2_from_any_size g + sizeChildren gs
end

/-- gbox_serialized_size (gbox.c, not in src/; identical to the in-src
    gserialized2_box_size, gserialized2.c:83-89): 6 floats when geodetic,
    else two floats per dimension. -/
def gbox_serialized_size (flags : Lwflags) : Nat :=
  if flags.geodetic then 24 else 8 * flags.ndims

/-- gserialized2_from_lwgeom_size (gserialized2.c:836-853). -/
def gserialized2_from_lwgeom_size (g : LWGeom) : Nat :=
  8 + (if lwflags_uses_extended_flags g.flags then 8 else 0)
    + (match g.bbox with | some _ => gbox_serialized_size g.flags | none => 0)
    + gserialized2_from_any_size g

/- ********************************************************************
   GS2 encoder (gserialized2.c:863-1424)
   ******************************************************************** -/

/-- Z/M agreement between a node's flags and a point array's flags
    (FLAGS_GET_ZM comparison). -/
def zmMatch (flags : Lwflags) (pa : PtArray) : Bool :=
  flags.z == pa.z && flags.m == pa.m

/-- Z/M agreement between two nodes' flags. -/
def zmFlagsMatch (f1 f2 : Lwflags) : Bool :=
  f1.z == f2.z && f1.m == f2.m

mutual
/-- gserialized2_from_lwgeom_any (gserialized2.c:1261-1301) with the
    per-type writers inlined as match arms; a dimensions-mismatch lwerror
    is modelled as none.  Coordinate copies take exactly the byte count the
    C memcpy copies: npoints * ptarray_point_size(pa) for the simple types
    (the point array's own flags), npoints * FLAGS_NDIMS(poly->flags)
    doubles per polygon ring, npoints * ptarray_point_size for NURBS. -/
def gserialized2_from_lwgeom_any : LWGeom → Option (List Atom)
| .mk _ flags _ body =>
  match body with
  | .point pa =>
    if !zmMatch flags pa then none
    else some ([Atom.word POINTTYPE, Atom.word pa.npoints]
      ++ (if 0 < pa.npoints then (pa.data.take pa.ndims).map Atom.dbl else []))
  | .line pa =>
    if flags.z != pa.z then none
    else some ([Atom.word LINETYPE, Atom.word pa.npoints]
      ++ (if 0 < pa.npoints then
            (pa.data.take (pa.npoints * pa.ndims)).map Atom.dbl else []))
  | .circ pa =>
    if !zmMatch flags pa then none
    else some ([Atom.word CIRCSTRINGTYPE, Atom.word pa.npoints]
      ++ (if 0 < pa.npoints then
            (pa.data.take (pa.npoints * pa.ndims)).map Atom.dbl else []))
  | .tri pa =>
    if !zmMatch flags pa then none
    else some ([Atom.word TRIANGLETYPE, Atom.word pa.npoints]
      ++ (if 0 < pa.npoints then
            (pa.data.take (pa.npoints * pa.ndims)).map Atom.dbl else []))
  | .poly rings =>
    if !(rings.all (fun r => zmMatch flags r)) then none
    else some ([Atom.word POLYGONTYPE, Atom.word rings.length]
      ++ rings.map (fun r => Atom.word r.npoints)
      ++ (if rings.length % 2 = 1 then [Atom.word 0] else [])
      ++ (rings.map (fun r =>
            (r.data.take (r.npoints * flags.ndims)).map Atom.dbl)).flatten)
  | .nurbs nd =>
    if (match nd.points with
        | some pa => !zmMatch flags pa
        | none => false) then none
    else
      let npoints : Nat := match nd.points with
        | some pa => pa.npoints
        | none => 0
      some ([Atom.word NURBSCURVETYPE, Atom.word npoints,
             Atom.word nd.degree, Atom.word nd.nweights, Atom.word nd.nknots]
        ++ (match nd.weights with
            | some w => if 0 < nd.nweights then (w.take nd.nweights).map Atom.dbl
                        else []
            | none => [])
        ++ (match nd.knots with
            | some k => if 0 < nd.nknots then (k.take nd.nknots).map Atom.dbl
                        else []
            | none => [])
        ++ (match nd.points with
            | some pa => if 0 < pa.npoints then
                (pa.data.take (pa.npoints * pa.ndims)).map Atom.dbl else []
            | none => []))
  | .coll t gs =>
    (encodeChildren flags gs).map
      (fun rest => [Atom.word t, Atom.word gs.length] ++ rest)
/-- The sub-geometry loop of gserialized2_from_lwcollection
    (gserialized2.c:1105-1111): Z/M check against the parent, then the
    child payload. -/
def encodeChildren (pflags : Lwflags) : GeomList → Option (List Atom)
| .nil => some []
| .cons g gs =>
  if !zmFlagsMatch pflags g.flags then none
  else do
    let a ← gserialized2_from_lwgeom_any g
    let rest ← encodeChildren pflags gs
    pure (a ++ rest)
end

/-- gserialized2_from_gbox (gserialized2.c:1321-1364): xmin/xmax/ymin/ymax
    rounded outward, then the geodetic Z pair, or the Z and M pairs, by
    the box's flags. -/
def boxFloats (b : GBox) : List ℚ :=
  [next_float_down b.xmin, next_float_up b.xmax,
   next_float_down b.ymin, next_float_up b.ymax]
  ++ (if b.flags.geodetic then
        [next_float_down b.zmin, next_float_up b.zmax]
      else
        (if b.flags.z then [next_float_down b.zmin, next_float_up b.zmax]
         else [])
        ++ (if b.flags.m then [next_float_down b.mmin, next_float_up b.mmax]
            else []))

/-- gserialized2_from_lwgeom (gserialized2.c:1368-1424).  The
    FLAGS_SET_BBOX harmonization (line 1387) is reflected by deriving the
    BBOX bit from bbox presence; the lwgeom_add_bbox step (line 1379-1382,
    lwgeom.c not in src/) only replaces the input geometry, so the codec is
    modelled on the geometry as encoded. -/
def gserialized2_from_lwgeom (g : LWGeom) : Option GSer := do
  let payload ← gserialized2_from_lwgeom_any g
  pure { size := gserialized2_from_lwgeom_size g
         sridWord := gserialized2_set_srid_word g.srid
         z := g.flags.z
         m := g.flags.m
         hasBbox := g.bbox.isSome
         geod := g.flags.geodetic
         ext := lwflags_uses_extended_flags g.flags
         extSolid := if lwflags_uses_extended_flags g.flags then
             some g.flags.solid else none
         bbox := g.bbox.map boxFloats
         payload := payload }

/- ********************************************************************
   Validity of in-memory geometries (spec section 3 invariants: flag
   agreement between nodes and coordinate blocks, array-length
   consistency, Point arity)
   ******************************************************************** -/

mutual
/-- Well-formed geometry: bbox dimension flags agree with the node, every
    coordinate block is consistent and Z/M-matches its node, a Point has
    at most one coordinate, NURBS weight/knot arrays match their stored
    counts, and collection children Z/M-match the parent. -/
def LWGeom.wf : LWGeom → Bool
| .mk _ flags bbox body =>
  (match bbox with
   | some b => b.flags.z == flags.z && b.flags.m == flags.m &&
       b.flags.geodetic == flags.geodetic
   | none => true) &&
  (match body with
   | .point pa => pa.wf && zmMatch flags pa && decide (pa.npoints ≤ 1)
   | .line pa => pa.wf && zmMatch flags pa
   | .circ pa => pa.wf && zmMatch flags pa
   | .tri pa => pa.wf && zmMatch flags pa
   | .poly rings => rings.all (fun r => r.wf && zmMatch flags r)
   | .nurbs nd =>
     (match nd.points with
      | some pa => pa.wf && zmMatch flags pa
      | none => true) &&
     (match nd.weights with
      | some w => w.length == nd.nweights
      | none => true) &&
     (match nd.knots with
      | some k => k.length == nd.nknots
      | none => true)
   | .coll _ gs => GeomList.wfAll flags gs)
/-- Well-formedness of all children against the parent flags. -/
def GeomList.wfAll (pflags : Lwflags) : GeomList → Bool
| .nil => true
| .cons g gs =>
  zmFlagsMatch pflags g.flags && g.wf && GeomList.wfAll pflags gs
end

/- ********************************************************************
   GS2 emptiness probe (gserialized2.c:224-258)
   ******************************************************************** -/

/-- The payload slot that starts at a given byte offset; none when the
    offset falls inside a slot (the C code would read raw bytes there, a
    case never reached by the inputs the claims evaluate). -/
def atomAtByte : List Atom → Nat → Option Atom
| [], _ => none
| a :: rest, off =>
  if off = 0 then some a
  else if off < a.size then none
  else atomAtByte rest (off - a.size)

/-- The 4-byte word at a byte offset of the payload. -/
def readWordAt (atoms : List Atom) (off : Nat) : Option Nat :=
  match atomAtByte atoms off with
  | some (Atom.word n) => some n
  | _ => none

/-- The 8-byte double at a byte offset of the payload. -/
def readDblAt (atoms : List Atom) (off : Nat) : Option ℚ :=
  match atomAtByte atoms off with
  | some (Atom.dbl q) => some q
  | _ => none

mutual
/-- gserialized2_is_empty_recurse (gserialized2.c:225-250): reads the type
    word and the count word 4 bytes further; for a collection it walks num
    children accumulating their reported sizes, stopping at the first
    non-empty one; for anything else it reports emptiness as count == 0
    and a consumed size of 8 bytes.  The fuel bounds the number of steps
    (the in-src recursion has no guard); every reachable computation of
    the claims runs within the fuel supplied by gserialized2_is_empty. -/
def gserialized2_is_empty_recurse : Nat → List Atom → Nat →
    Option (Nat × Bool)
| 0, _, _ => none
| fuel + 1, atoms, off => do
  let t ← readWordAt atoms off
  let num ← readWordAt atoms (off + 4)
  if lwtype_is_collection t then
    isEmptyLoop fuel atoms off 8 num
  else
    pure (8, num = 0)
/-- The child loop of gserialized2_is_empty_recurse: lz starts at 8 and
    grows by each child's reported size; the loop exits early with false
    on the first non-empty child and otherwise ends with true. -/
def isEmptyLoop : Nat → List Atom → Nat → Nat → Nat →
    Option (Nat × Bool)
| 0, _, _, _, _ => none
| _ + 1, _, _, lz, 0 => some (lz, true)
| fuel + 1, atoms, off, lz, cnt + 1 => do
  let (sz, e) ← gserialized2_is_empty_recurse fuel atoms (off + lz)
  if e then isEmptyLoop fuel atoms off (lz + sz) cnt
  else pure (lz + sz, false)
end

/-- gserialized2_is_empty (gserialized2.c:252-258); the fuel comfortably
    bounds the steps of any walk over the payload. -/
def gserialized2_is_empty (s : GSer) : Option Bool :=
  (gserialized2_is_empty_recurse (2 * s.payload.length + 2) s.payload 0).map
    (fun r => r.2)

/- ********************************************************************
   Structural emptiness of in-memory geometries.
   Modelled from the spec: lwgeom_is_empty (lwgeom.c, not in src/) — a
   geometry is empty when it has no coordinates: count zero for the
   pointful types, no rings for a polygon, no control points for a NURBS
   curve, and all children empty for a collection.
   ******************************************************************** -/

mutual
/-- Structural emptiness of a geometry. -/
def lwgeom_is_empty : LWGeom → Bool
| .mk _ _ _ body =>
  match body with
  | .point pa => pa.npoints = 0
  | .line pa => pa.npoints = 0
  | .circ pa => pa.npoints = 0
  | .tri pa => pa.npoints = 0
  | .poly rings => rings.length = 0
  | .nurbs nd =>
    match nd.points with
    | some pa => pa.npoints = 0
    | none => true
  | .coll _ gs => GeomList.allEmpty gs
/-- All children empty. -/
def GeomList.allEmpty : GeomList → Bool
| .nil => true
| .cons g gs => lwgeom_is_empty g && GeomList.allEmpty gs
end

/- ********************************************************************
   GS2 decoder (gserialized2.c:1432-1981)
   ******************************************************************** -/

/-- Consume k leading double slots of the payload. -/
def takeDbls : List Atom → Nat → Option (List ℚ × List Atom)
| rest, 0 => some ([], rest)
| Atom.dbl q :: rest, k + 1 => do
  let (ds, rest2) ← takeDbls rest k
  pure (q :: ds, rest2)
| _, _ + 1 => none

/-- Consume k leading word slots of the payload. -/
def takeWords : List Atom → Nat → Option (List Nat × List Atom)
| rest, 0 => some ([], rest)
| Atom.word n :: rest, k + 1 => do
  let (ns, rest2) ← takeWords rest k
  pure (n :: ns, rest2)
| _, _ + 1 => none

/-- ptarray_construct_reference_data: a point array borrowing npoints
    coordinates of the given dimensions from the buffer. -/
def ptarray_construct_reference_data (z m : Bool) (npoints : Nat)
    (ds : List ℚ) : PtArray :=
  { z := z, m := m, npoints := npoints, data := ds }

/-- The polygon ring loop of lwpoly_from_gserialized2_buffer
    (gserialized2.c:1535-1547): one reference point array per ring count,
    consuming the ring ordinates sequentially. -/
def decodeRings (flags : Lwflags) : List Nat → List Atom →
    Option (List PtArray × List Atom)
| [], rest => some ([], rest)
| n :: ns, rest => do
  let (ds, rest2) ← takeDbls rest (n * flags.ndims)
  let (pas, rest3) ← decodeRings flags ns rest2
  pure (ptarray_construct_reference_data flags.z flags.m n ds :: pas, rest3)

mutual
/-- lwgeom_from_gserialized2_buffer (gserialized2.c:1886-1927) with the
    per-type deserializers inlined as branches.  Each branch mirrors its C
    function: simple types build a reference point array (or an empty one
    for count 0); polygons read the ring counts, skip the odd-count pad
    word, then the ring ordinates; collections check each child's subtype
    admissibility and decode children with the BBOX bit cleared; NURBS
    reads the five fixed words then weights, knots and coordinates — and
    sets srid = SRID_UNKNOWN, dropping the srid argument
    (gserialized2.c:1732 and 1922).  An unknown type is an lwerror,
    modelled as none.  The fuel bounds the recursion depth. -/
def decGeom : Nat → List Atom → Lwflags → Int →
    Option (LWGeom × List Atom)
| 0, _, _, _ => none
| fuel + 1, atoms, flags, srid =>
    match atoms with
    | Atom.word t :: rest =>
      if t = POINTTYPE then
        match rest with
        | Atom.word n :: rest2 => do
          let (ds, rest3) ← takeDbls rest2 (n * flags.ndims)
          let pa := if 0 < n then
              ptarray_construct_reference_data flags.z flags.m 1
                (ds.take flags.ndims)
            else ptarray_construct_empty flags.z flags.m
          pure (LWGeom.mk srid flags none (GBody.point pa), rest3)
        | _ => none
      else if t = LINETYPE then
        match rest with
        | Atom.word n :: rest2 => do
          let (ds, rest3) ← takeDbls rest2 (n * flags.ndims)
          let pa := if 0 < n then
              ptarray_construct_reference_data flags.z flags.m n ds
            else ptarray_construct_empty flags.z flags.m
          pure (LWGeom.mk srid flags none (GBody.line pa), rest3)
        | _ => none
      else if t = CIRCSTRINGTYPE then
        match rest with
        | Atom.word n :: rest2 => do
          let (ds, rest3) ← takeDbls rest2 (n * flags.ndims)
          let pa := if 0 < n then
              ptarray_construct_reference_data flags.z flags.m n ds
            else ptarray_construct_empty flags.z flags.m
          pure (LWGeom.mk srid flags none (GBody.circ pa), rest3)
        | _ => none
      else if t = TRIANGLETYPE then
        match rest with
        | Atom.word n :: rest2 => do
          let (ds, rest3) ← takeDbls rest2 (n * flags.ndims)
          let pa := if 0 < n then
              ptarray_construct_reference_data flags.z flags.m n ds
            else ptarray_construct_empty flags.z flags.m
          pure (LWGeom.mk srid flags none (GBody.tri pa), rest3)
        | _ => none
      else if t = POLYGONTYPE then
        match rest with
        | Atom.word nrings :: rest2 => do
          let (counts, rest3) ← takeWords rest2 nrings
          let rest4 ← if nrings % 2 = 1 then
              (match rest3 with
               | Atom.word _ :: r => some r
               | _ => none)
            else some rest3
          let (rings, rest5) ← decodeRings flags counts rest4
          pure (LWGeom.mk srid flags none (GBody.poly rings), rest5)
        | _ => none
      else if lwtype_is_collection t then
        match rest with
        | Atom.word ngeoms :: rest2 => do
          let (gs, rest3) ← decChildren fuel ngeoms rest2 t
            { flags with bbox := false } srid
          pure (LWGeom.mk srid flags none (GBody.coll t gs), rest3)
        | _ => none
      else if t = NURBSCURVETYPE then
        match rest with
        | Atom.word npoints :: Atom.word degree :: Atom.word nweights ::
            Atom.word nknots :: rest2 => do
          let (ws, rest3) ← if 0 < nweights then takeDbls rest2 nweights
            else pure ([], rest2)
          let (ks, rest4) ← if 0 < nknots then takeDbls rest3 nknots
            else pure ([], rest3)
          let (ds, rest5) ← takeDbls rest4 (npoints * flags.ndims)
          let pa := if 0 < npoints then
              ptarray_construct_reference_data flags.z flags.m npoints ds
            else ptarray_construct_empty flags.z flags.m
          pure (LWGeom.mk SRID_UNKNOWN flags none
            (GBody.nurbs { degree := degree, nweights := nweights
                           nknots := nknots
                           weights := if 0 < nweights then some ws else none
                           knots := if 0 < nknots then some ks else none
                           points := some pa }), rest5)
        | _ => none
      else none
    | _ => none
/-- The child loop of lwcollection_from_gserialized2_buffer
    (gserialized2.c:1676-1689): peek the subtype word, refuse a child the
    collection type does not allow, else decode it. -/
def decChildren : Nat → Nat → List Atom → Nat → Lwflags → Int →
    Option (GeomList × List Atom)
| 0, _, _, _, _, _ => none
| _ + 1, 0, atoms, _, _, _ => some (GeomList.nil, atoms)
| fuel + 1, cnt + 1, atoms, t, flags, srid =>
    match atoms with
    | Atom.word sub :: _ =>
      if lwcollection_allows_subtype t sub then do
        let (g, rest) ← decGeom fuel atoms flags srid
        let (gs, rest2) ← decChildren fuel cnt rest t flags srid
        pure (GeomList.cons g gs, rest2)
      else none
    | _ => none
end

/-- gserialized2_read_gbox_p (gserialized2.c:314-355): read the stored
    floats back in storage order; absent dimensions are left at 0 (the C
    struct fields stay uninitialized). -/
def gserialized2_read_gbox_p (s : GSer) : Option GBox :=
  if !s.hasBbox then none
  else
    match s.bbox with
    | none => none
    | some l =>
      let flags := gserialized2_get_lwflags s
      let zpos : Nat := 4
      let mpos : Nat := 4 + (if s.geod || s.z then 2 else 0)
      some { flags := flags
             xmin := l.getD 0 0, xmax := l.getD 1 0
             ymin := l.getD 2 0, ymax := l.getD 3 0
             zmin := if s.geod || s.z then l.getD zpos 0 else 0
             zmax := if s.geod || s.z then l.getD (zpos + 1) 0 else 0
             mmin := if !s.geod && s.m then l.getD mpos 0 else 0
             mmax := if !s.geod && s.m then l.getD (mpos + 1) 0 else 0 }

/-- lwgeom_from_gserialized2 (gserialized2.c:1929-1981): srid and flags
    from the header, payload decoded with them, then the root node is
    given the header flags and the stored bbox.  The root srid is whatever
    the payload decoder produced (the C code never overwrites it).  The
    needs-bbox/calculate-bbox fallback (lwgeom.c, not in src/) is modelled
    as leaving no bbox; no claim exercises it. -/
def lwgeom_from_gserialized2 (s : GSer) : Option LWGeom := do
  let srid := gserialized2_get_srid s.sridWord
  let lwflags := gserialized2_get_lwflags s
  let (g, _) ← decGeom (2 * s.payload.length + 2) s.payload lwflags srid
  pure (LWGeom.mk g.srid lwflags (gserialized2_read_gbox_p s) g.body)

/- ********************************************************************
   GS2 bbox peek (gserialized2.c:361-530)
   ******************************************************************** -/

/-- gserialized2_peek_gbox_p (gserialized2.c:361-530).  Fails for geodetic
    records and records that already store a box; otherwise handles the
    non-empty point, the two-point linestring, the one-point multipoint
    and the one-line-of-two-points multiline, reading the payload doubles
    at the same byte offsets the C pointer arithmetic uses, and rounding
    the result outward.  Absent dimensions stay 0. -/
def gserialized2_peek_gbox_p (s : GSer) : Option GBox :=
  if s.geod || s.hasBbox then none
  else do
    let t ← readWordAt s.payload 0
    let lwflags := gserialized2_get_lwflags s
    let ndims : Nat := 2 + (cond s.z 1 0) + (cond s.m 1 0)
    if t = POINTTYPE then do
      let npoints ← readWordAt s.payload 4
      if npoints = 0 then none
      else do
        let x ← readDblAt s.payload 8
        let y ← readDblAt s.payload 16
        let z ← if s.z then readDblAt s.payload 24 else pure 0
        let m ← if s.m then readDblAt s.payload (24 + (cond s.z 8 0))
          else pure 0
        pure (gbox_float_round
          { flags := lwflags, xmin := x, xmax := x, ymin := y, ymax := y
            zmin := z, zmax := z, mmin := m, mmax := m })
    else if t = LINETYPE then do
      let npoints ← readWordAt s.payload 4
      if npoints ≠ 2 then none
      else do
        let x1 ← readDblAt s.payload 8
        let x2 ← readDblAt s.payload (8 * (1 + ndims))
        let y1 ← readDblAt s.payload 16
        let y2 ← readDblAt s.payload (8 * (2 + ndims))
        let z1 ← if s.z then readDblAt s.payload 24 else pure 0
        let z2 ← if s.z then readDblAt s.payload (8 * (3 + ndims))
          else pure 0
        let m1 ← if s.m then readDblAt s.payload (8 * (2 + cond s.z 1 0 + 1))
          else pure 0
        let m2 ← if s.m then
            readDblAt s.payload (8 * (2 + cond s.z 1 0 + 1 + ndims))
          else pure 0
        pure (gbox_float_round
          { flags := lwflags
            xmin := fpMin x1 x2, xmax := fpMax x1 x2
            ymin := fpMin y1 y2, ymax := fpMax y1 y2
            zmin := fpMin z1 z2, zmax := fpMax z1 z2
            mmin := fpMin m1 m2, mmax := fpMax m1 m2 })
    else if t = MULTIPOINTTYPE then do
      let ngeoms ← readWordAt s.payload 4
      if ngeoms ≠ 1 then none
      else do
        let npoints ← readWordAt s.payload 12
        if npoints ≠ 1 then none
        else do
          let x ← readDblAt s.payload 16
          let y ← readDblAt s.payload 24
          let z ← if s.z then readDblAt s.payload 32 else pure 0
          let m ← if s.m then readDblAt s.payload (32 + (cond s.z 8 0))
            else pure 0
          pure (gbox_float_round
            { flags := lwflags, xmin := x, xmax := x, ymin := y, ymax := y
              zmin := z, zmax := z, mmin := m, mmax := m })
    else if t = MULTILINETYPE then do
      let ngeoms ← readWordAt s.payload 4
      if ngeoms ≠ 1 then none
      else do
        let npoints ← readWordAt s.payload 12
        if npoints ≠ 2 then none
        else do
          let x1 ← readDblAt s.payload 16
          let x2 ← readDblAt s.payload (8 * (2 + ndims))
          let y1 ← readDblAt s.payload 24
          let y2 ← readDblAt s.payload (8 * (3 + ndims))
          let z1 ← if s.z then readDblAt s.payload 32 else pure 0
          let z2 ← if s.z then readDblAt s.payload (8 * (4 + ndims))
            else pure 0
          let m1 ← if s.m then
              readDblAt s.payload (8 * (3 + cond s.z 1 0 + 1))
            else pure 0
          let m2 ← if s.m then
              readDblAt s.payload (8 * (3 + cond s.z 1 0 + 1 + ndims))
            else pure 0
          pure (gbox_float_round
            { flags := lwflags
              xmin := fpMin x1 x2, xmax := fpMax x1 x2
              ymin := fpMin y1 y2, ymax := fpMax y1 y2
              zmin := fpMin z1 z2, zmax := fpMax z1 z2
              mmin := fpMin m1 m2, mmax := fpMax m1 m2 })
    else none

/- ********************************************************************
   C2: size prediction is exact
   ******************************************************************** -/

theorem atomsSize_append (a b : List Atom) :
    atomsSize (a ++ b) = atomsSize a + atomsSize b := by
  simp [atomsSize]

theorem atomsSize_dbls (l : List ℚ) :
    atomsSize (l.map Atom.dbl) = 8 * l.length := by
  induction l with
  | nil => rfl
  | cons q l ih => simp [atomsSize, Atom.size] at ih ⊢; omega

theorem atomsSize_ring_words (rings : List PtArray) :
    atomsSize (rings.map (fun r => Atom.word r.npoints)) = 4 * rings.length := by
  induction rings with
  | nil => rfl
  | cons r rs ih => simp [atomsSize, Atom.size] at ih ⊢; omega

/-- Z/M flag agreement makes the node and array dimension counts equal. -/
theorem zmMatch_ndims {flags : Lwflags} {pa : PtArray}
    (h : zmMatch flags pa = true) : flags.ndims = pa.ndims := by
  simp [zmMatch] at h
  simp [Lwflags.ndims, PtArray.ndims, h.1, h.2]

/-- A well-formed array's coordinate copy at its own point size is the
    whole buffer. -/
theorem wf_take_data {pa : PtArray} (h : pa.wf = true) :
    pa.data.take (pa.npoints * pa.ndims) = pa.data := by
  simp [PtArray.wf] at h
  exact List.take_of_length_le (le_of_eq h)

theorem andTrueE {a b : Bool} (h : (a && b) = true) :
    a = true ∧ b = true := by
  simp only [Bool.and_eq_true] at h
  exact h

theorem atomsSize_flat_rings (flags : Lwflags) (rings : List PtArray)
    (hdata : ∀ r ∈ rings,
      atomsSize ((r.data.take (r.npoints * flags.ndims)).map Atom.dbl)
        = r.npoints * (8 * flags.ndims)) :
    atomsSize ((rings.map (fun r =>
        (r.data.take (r.npoints * flags.ndims)).map Atom.dbl)).flatten)
      = (rings.map (fun r => r.npoints * (8 * flags.ndims))).sum := by
  induction rings with
  | nil => rfl
  | cons r rs ih =>
    simp only [List.map_cons, List.flatten_cons, atomsSize_append,
      List.sum_cons]
    rw [hdata r (by simp), ih (fun r2 hr2 => hdata r2 (by simp [hr2]))]

theorem sum_ring_sizes (flags : Lwflags) (rings : List PtArray) :
    (rings.map (fun r => 4 + r.npoints * (8 * flags.ndims))).sum
      = 4 * rings.length
        + (rings.map (fun r => r.npoints * (8 * flags.ndims))).sum := by
  induction rings with
  | nil => rfl
  | cons r rs ih =>
    simp only [List.map_cons, List.sum_cons, List.length_cons] at ih ⊢
    omega

mutual
/-- The payload writer succeeds on a well-formed geometry and writes
    exactly the bytes the payload sizer predicts. -/
theorem payloadSizeGeom :
    ∀ g : LWGeom, g.wf = true →
      ∃ a, gserialized2_from_lwgeom_any g = some a ∧
        atomsSize a = gserialized2_from_any_size g
| .mk srid flags bbox body, h => by
  rw [LWGeom.wf.eq_def] at h
  obtain ⟨hbox, hbody⟩ := andTrueE h
  cases body with
  | point pa =>
    obtain ⟨h1, h3⟩ := andTrueE hbody
    obtain ⟨hwf, hzm⟩ := andTrueE h1
    have hnd := zmMatch_ndims hzm
    have hlen : pa.data.length = pa.npoints * pa.ndims := by
      simpa [PtArray.wf] using hwf
    refine ⟨_, by rw [gserialized2_from_lwgeom_any]; rw [hzm]; rfl, ?_⟩
    rw [gserialized2_from_any_size]
    rcases Nat.lt_or_ge 0 pa.npoints with hp | hp
    · have hple : pa.npoints = 1 := by
        have := of_decide_eq_true h3
        omega
      rw [if_pos hp, atomsSize_append, atomsSize_dbls, List.length_take, hnd]
      rw [hple] at hlen ⊢
      simp only [atomsSize, List.map_cons, List.map_nil, Atom.size,
        List.sum_cons, List.sum_nil]
      omega
    · have hp0 : pa.npoints = 0 := by omega
      simp [atomsSize, Atom.size, hp0]
  | line pa =>
    obtain ⟨hwf, hzm⟩ := andTrueE hbody
    have hnd := zmMatch_ndims hzm
    have hlen : pa.data.length = pa.npoints * pa.ndims := by
      simpa [PtArray.wf] using hwf
    have hz : (flags.z != pa.z) = false := by
      simp [zmMatch] at hzm
      simp [hzm.1]
    refine ⟨_, by rw [gserialized2_from_lwgeom_any]; rw [hz]; rfl, ?_⟩
    rw [gserialized2_from_any_size]
    rcases Nat.lt_or_ge 0 pa.npoints with hp | hp
    · rw [if_pos hp, atomsSize_append, atomsSize_dbls, List.length_take,
        hlen, Nat.min_self, hnd]
      simp only [atomsSize, List.map_cons, List.map_nil, Atom.size,
        List.sum_cons, List.sum_nil]
      ring
    · have hp0 : pa.npoints = 0 := by omega
      simp [atomsSize, Atom.size, hp0]
  | circ pa =>
    obtain ⟨hwf, hzm⟩ := andTrueE hbody
    have hnd := zmMatch_ndims hzm
    have hlen : pa.data.length = pa.npoints * pa.ndims := by
      simpa [PtArray.wf] using hwf
    refine ⟨_, by rw [gserialized2_from_lwgeom_any]; rw [hzm]; rfl, ?_⟩
    rw [gserialized2_from_any_size]
    rcases Nat.lt_or_ge 0 pa.npoints with hp | hp
    · rw [if_pos hp, atomsSize_append, atomsSize_dbls, List.length_take,
        hlen, Nat.min_self, hnd]
      simp only [atomsSize, List.map_cons, List.map_nil, Atom.size,
        List.sum_cons, List.sum_nil]
      ring
    · have hp0 : pa.npoints = 0 := by omega
      simp [atomsSize, Atom.size, hp0]
  | tri pa =>
    obtain ⟨hwf, hzm⟩ := andTrueE hbody
    have hnd := zmMatch_ndims hzm
    have hlen : pa.data.length = pa.npoints * pa.ndims := by
      simpa [PtArray.wf] using hwf
    refine ⟨_, by rw [gserialized2_from_lwgeom_any]; rw [hzm]; rfl, ?_⟩
    rw [gserialized2_from_any_size]
    rcases Nat.lt_or_ge 0 pa.npoints with hp | hp
    · rw [if_pos hp, atomsSize_append, atomsSize_dbls, List.length_take,
        hlen, Nat.min_self, hnd]
      simp only [atomsSize, List.map_cons, List.map_nil, Atom.size,
        List.sum_cons, List.sum_nil]
      ring
    · have hp0 : pa.npoints = 0 := by omega
      simp [atomsSize, Atom.size, hp0]
  | poly rings =>
    have hall : rings.all (fun r => r.wf && zmMatch flags r) = true := hbody
    have hzmall : rings.all (fun r => zmMatch flags r) = true := by
      rw [List.all_eq_true] at hall ⊢
      intro r hr
      exact (andTrueE (hall r hr)).2
    refine ⟨_, by rw [gserialized2_from_lwgeom_any]; rw [hzmall]; rfl, ?_⟩
    rw [gserialized2_from_any_size]
    have hdata : ∀ r ∈ rings,
        atomsSize ((r.data.take (r.npoints * flags.ndims)).map Atom.dbl)
          = r.npoints * (8 * flags.ndims) := by
      intro r hr
      have hrw := List.all_eq_true.mp hall r hr
      obtain ⟨hwf, hzm⟩ := andTrueE hrw
      have hnd := zmMatch_ndims hzm
      have hlen : r.data.length = r.npoints * r.ndims := by
        simpa [PtArray.wf] using hwf
      rw [atomsSize_dbls, List.length_take, hnd, hlen, Nat.min_self]
      ring
    rw [atomsSize_append, atomsSize_append, atomsSize_append,
      atomsSize_ring_words]
    rw [atomsSize_flat_rings flags rings hdata]
    have hsum := sum_ring_sizes flags rings
    rcases Nat.decEq (rings.length % 2) 1 with hpar | hpar
    · simp only [hpar, if_false, atomsSize, List.map_cons, List.map_nil,
        Atom.size, List.sum_cons, List.sum_nil]
      omega
    · simp only [hpar, if_true, atomsSize, List.map_cons, List.map_nil,
        Atom.size, List.sum_cons, List.sum_nil]
      omega
  | nurbs nd =>
    obtain ⟨h1, hk⟩ := andTrueE hbody
    obtain ⟨hpts, hw⟩ := andTrueE h1
    have hguard : (match nd.points with
        | some pa => !zmMatch flags pa
        | none => false) = false := by
      cases hnp : nd.points with
      | none => rfl
      | some pa =>
        rw [hnp] at hpts
        obtain ⟨_, hzm⟩ := andTrueE hpts
        simp [hzm]
    refine ⟨_, by rw [gserialized2_from_lwgeom_any]; rw [hguard]; rfl, ?_⟩
    rw [gserialized2_from_any_size]
    rw [atomsSize_append, atomsSize_append, atomsSize_append]
    have hwterm : atomsSize (match nd.weights with
        | some w => if 0 < nd.nweights then (w.take nd.nweights).map Atom.dbl
                    else []
        | none => []) = (match nd.weights with
        | some _ => if 0 < nd.nweights then 8 * nd.nweights else 0
        | none => 0) := by
      cases hnw : nd.weights with
      | none => rfl
      | some w =>
        rw [hnw] at hw
        have hwlen : w.length = nd.nweights := by simpa using hw
        show atomsSize (if 0 < nd.nweights then
            (w.take nd.nweights).map Atom.dbl else [])
          = (if 0 < nd.nweights then 8 * nd.nweights else 0)
        by_cases hlt : 0 < nd.nweights
        · rw [if_pos hlt, if_pos hlt, atomsSize_dbls, List.length_take,
            hwlen, Nat.min_self]
        · rw [if_neg hlt, if_neg hlt]
          rfl
    have hkterm : atomsSize (match nd.knots with
        | some k => if 0 < nd.nknots then (k.take nd.nknots).map Atom.dbl
                    else []
        | none => []) = (match nd.knots with
        | some _ => if 0 < nd.nknots then 8 * nd.nknots else 0
        | none => 0) := by
      cases hnk : nd.knots with
      | none => rfl
      | some k =>
        rw [hnk] at hk
        have hklen : k.length = nd.nknots := by simpa using hk
        show atomsSize (if 0 < nd.nknots then
            (k.take nd.nknots).map Atom.dbl else [])
          = (if 0 < nd.nknots then 8 * nd.nknots else 0)
        by_cases hlt : 0 < nd.nknots
        · rw [if_pos hlt, if_pos hlt, atomsSize_dbls, List.length_take,
            hklen, Nat.min_self]
        · rw [if_neg hlt, if_neg hlt]
          rfl
    have hpterm : atomsSize (match nd.points with
        | some pa => if 0 < pa.npoints then
            (pa.data.take (pa.npoints * pa.ndims)).map Atom.dbl else []
        | none => []) = (match nd.points with
        | some pa => 8 * pa.npoints * flags.ndims
        | none => 0) := by
      cases hnp : nd.points with
      | none => rfl
      | some pa =>
        rw [hnp] at hpts
        obtain ⟨hwf, hzm⟩ := andTrueE hpts
        have hnd := zmMatch_ndims hzm
        have hlen : pa.data.length = pa.npoints * pa.ndims := by
          simpa [PtArray.wf] using hwf
        show atomsSize (if 0 < pa.npoints then
            (pa.data.take (pa.npoints * pa.ndims)).map Atom.dbl else [])
          = 8 * pa.npoints * flags.ndims
        by_cases hlt : 0 < pa.npoints
        · rw [if_pos hlt, atomsSize_dbls, List.length_take, hlen,
            Nat.min_self, hnd]
          ring
        · have hp0 : pa.npoints = 0 := by omega
          rw [if_neg hlt, hp0]
          simp [atomsSize]
    rw [hwterm, hkterm, hpterm]
    simp only [atomsSize, List.map_cons, List.map_nil, Atom.size,
      List.sum_cons, List.sum_nil]
    omega
  | coll t gs =>
    obtain ⟨a, henc, hsz⟩ := payloadSizeChildren flags gs hbody
    refine ⟨_, by rw [gserialized2_from_lwgeom_any]; rw [henc]; rfl, ?_⟩
    rw [gserialized2_from_any_size]
    rw [atomsSize_append, hsz]
    simp only [atomsSize, List.map_cons, List.map_nil, Atom.size,
      List.sum_cons, List.sum_nil]
    omega
/-- The child loop succeeds on well-formed children and writes the summed
    child sizes. -/
theorem payloadSizeChildren :
    ∀ (pflags : Lwflags) (gs : GeomList), GeomList.wfAll pflags gs = true →
      ∃ a, encodeChildren pflags gs = some a ∧
        atomsSize a = sizeChildren gs
| _, .nil, _ => ⟨[], rfl, rfl⟩
| pflags, .cons g gs, h => by
  rw [GeomList.wfAll] at h
  obtain ⟨h12, hgs⟩ := andTrueE h
  obtain ⟨hzm, hg⟩ := andTrueE h12
  obtain ⟨a, ha, hsa⟩ := payloadSizeGeom g hg
  obtain ⟨b, hb, hsb⟩ := payloadSizeChildren pflags gs hgs
  refine ⟨a ++ b, ?_, ?_⟩
  · rw [encodeChildren]
    rw [hzm]
    simp [ha, hb]
  · rw [atomsSize_append, hsa, hsb, sizeChildren]
end

/-- The bbox float block occupies exactly the bytes gbox_serialized_size
    reserves, given the box/geometry dimension-flag agreement. -/
theorem boxFloats_bytes (b : GBox) (flags : Lwflags)
    (hz : b.flags.z = flags.z) (hm : b.flags.m = flags.m)
    (hg : b.flags.geodetic = flags.geodetic) :
    4 * (boxFloats b).length = gbox_serialized_size flags := by
  obtain ⟨fz, fm, fbb, fg, fs⟩ := flags
  simp only at hz hm hg
  cases fg <;> cases fz <;> cases fm <;>
    simp [boxFloats, gbox_serialized_size, Lwflags.ndims, hz, hm, hg]

/-- C2: the GS2 encoder succeeds on every well-formed geometry and the
    byte count of the record it writes — header, optional extended word,
    optional bbox floats, payload (with the polygon pad word and the five
    NURBS count words) — equals the sizer's prediction, which is also the
    stored varsize. -/
theorem c2_size_prediction (g : LWGeom) (h : g.wf = true) :
    ∃ s, gserialized2_from_lwgeom g = some s ∧
      GSer.bytes s = gserialized2_from_lwgeom_size g ∧
      s.size = gserialized2_from_lwgeom_size g := by
  obtain ⟨a, ha, hs⟩ := payloadSizeGeom g h
  obtain ⟨srid, flags, bbox, body⟩ := g
  rw [LWGeom.wf.eq_def] at h
  have hbox := (andTrueE h).1
  refine ⟨_, by rw [gserialized2_from_lwgeom]; rw [ha]; rfl, ?_, rfl⟩
  cases bbox with
  | none =>
    simp [GSer.bytes, gserialized2_from_lwgeom_size, hs, LWGeom.flags,
      LWGeom.bbox]
  | some b =>
    obtain ⟨hzm2, hg2⟩ := andTrueE hbox
    obtain ⟨hz2, hm2⟩ := andTrueE hzm2
    have hz3 : b.flags.z = flags.z := by simpa using hz2
    have hm3 : b.flags.m = flags.m := by simpa using hm2
    have hg3 : b.flags.geodetic = flags.geodetic := by simpa using hg2
    have hbb := boxFloats_bytes b flags hz3 hm3 hg3
    simp only [GSer.bytes, gserialized2_from_lwgeom_size, LWGeom.flags,
      LWGeom.bbox, Option.map]
    omega

/-- A 2-D single-ring polygon used to exercise the odd-ring pad word. -/
def c2geom : LWGeom :=
  LWGeom.mk 0
    { z := false, m := false, bbox := false, geodetic := false, solid := false }
    none
    (GBody.poly [{ z := false, m := false, npoints := 2, data := [0, 0, 1, 1] }])

/-- C2 witness: the one-ring polygon (odd ring count, hence padded). -/
theorem c2_size_prediction_witness :
    ∃ s, gserialized2_from_lwgeom c2geom = some s ∧
      GSer.bytes s = gserialized2_from_lwgeom_size c2geom ∧
      s.size = gserialized2_from_lwgeom_size c2geom :=
  c2_size_prediction c2geom (by decide)

/- ********************************************************************
   C1: GS2 round-trip loses the SRID of a NURBS curve
   ******************************************************************** -/

/-- Flags of the C1 test curve (2-D, bbox cached). -/
def c1flags : Lwflags :=
  { z := false, m := false, bbox := true, geodetic := false, solid := false }

/-- A degree-1 NURBS curve with two control points, srid 4326 and a
    stored bbox. -/
def c1nurbs : LWGeom :=
  LWGeom.mk 4326 c1flags
    (some { flags := c1flags, xmin := 0, xmax := 1, ymin := 0, ymax := 1
            zmin := 0, zmax := 0, mmin := 0, mmax := 0 })
    (GBody.nurbs
      { degree := 1, nweights := 0, nknots := 0, weights := none
        knots := none
        points := some { z := false, m := false, npoints := 2
                         data := [0, 0, 1, 1] } })

/-- C1: serializing the srid-4326 NURBS curve and deserializing it yields
    a geometry whose srid is SRID_UNKNOWN — the NURBS payload decoder is
    called without the srid (gserialized2.c:1922) and no caller restores
    it — so decode(encode(G)) differs from G in its SRID. -/
theorem c1_nurbs_srid_dropped :
    ((gserialized2_from_lwgeom c1nurbs).bind lwgeom_from_gserialized2).map
        LWGeom.srid = some SRID_UNKNOWN ∧
    LWGeom.srid c1nurbs = 4326 ∧
    LWGeom.wf c1nurbs = true ∧
    SRID_UNKNOWN ≠ (4326 : Int) := by
  exact ⟨by with_unfolding_all decide, rfl, by decide, by decide⟩

/- ********************************************************************
   C3: the emptiness probe misreads a collection after an empty NURBS
   ******************************************************************** -/

/-- All-clear 2-D flags. -/
def flags2d : Lwflags :=
  { z := false, m := false, bbox := false, geodetic := false, solid := false }

/-- GEOMETRYCOLLECTION(NURBSCURVE EMPTY, POINT(1 2)): the empty NURBS
    payload is 20 bytes, but the probe steps over it as if it were 8. -/
def c3geom : LWGeom :=
  LWGeom.mk 0 flags2d none
    (GBody.coll COLLECTIONTYPE
      (GeomList.cons
        (LWGeom.mk 0 flags2d none
          (GBody.nurbs
            { degree := 1, nweights := 0, nknots := 0, weights := none
              knots := none
              points := some (ptarray_construct_empty false false) }))
        (GeomList.cons
          (LWGeom.mk 0 flags2d none
            (GBody.point { z := false, m := false, npoints := 1
                           data := [1, 2] }))
          GeomList.nil)))

/-- C3: the serialized emptiness probe reports the collection
    [NURBSCURVE EMPTY, POINT(1 2)] as empty although it contains a point:
    after the 20-byte empty-NURBS child the probe advances only 8 bytes
    and reads the NURBS degree/nweights words as the next child's header. -/
theorem c3_probe_misreads_after_empty_nurbs :
    ((gserialized2_from_lwgeom c3geom).bind gserialized2_is_empty)
        = some true ∧
    lwgeom_is_empty c3geom = false ∧
    LWGeom.wf c3geom = true := by
  exact ⟨by with_unfolding_all decide, by decide, by decide⟩

/- ********************************************************************
   C8: bbox peek of a two-point linestring
   ******************************************************************** -/

/-- Boolean rational equality through the num/den projections; deciding
    it stays in integer arithmetic. -/
def qeqb (a b : ℚ) : Bool := a.num == b.num && a.den == b.den

theorem qeqb_eq {a b : ℚ} (h : qeqb a b = true) : a = b := by
  simp only [qeqb, Bool.and_eq_true, beq_iff_eq] at h
  exact Rat.ext h.1 h.2

theorem qeqb_ne {a b : ℚ} (h : qeqb a b = false) : a ≠ b := by
  intro he
  subst he
  simp [qeqb] at h

/-- Boolean GBox equality, field by field through qeqb. -/
def gboxEqb (a b : GBox) : Bool :=
  decide (a.flags = b.flags) && qeqb a.xmin b.xmin && qeqb a.xmax b.xmax &&
  qeqb a.ymin b.ymin && qeqb a.ymax b.ymax && qeqb a.zmin b.zmin &&
  qeqb a.zmax b.zmax && qeqb a.mmin b.mmin && qeqb a.mmax b.mmax

theorem gboxEqb_eq {a b : GBox} (h : gboxEqb a b = true) : a = b := by
  simp only [gboxEqb, Bool.and_eq_true, decide_eq_true_eq] at h
  obtain ⟨⟨⟨⟨⟨⟨⟨⟨h0, h1⟩, h2⟩, h3⟩, h4⟩, h5⟩, h6⟩, h7⟩, h8⟩ := h
  cases a
  cases b
  simp only at h0 h1 h2 h3 h4 h5 h6 h7 h8
  simp only [GBox.mk.injEq]
  exact ⟨h0, qeqb_eq h1, qeqb_eq h2, qeqb_eq h3, qeqb_eq h4,
    qeqb_eq h5, qeqb_eq h6, qeqb_eq h7, qeqb_eq h8⟩

/-- Boolean equality on optional GBoxes. -/
def optGBoxEqb : Option GBox → Option GBox → Bool
  | none, none => true
  | some a, some b => gboxEqb a b
  | _, _ => false

theorem optGBoxEqb_eq {x y : Option GBox} (h : optGBoxEqb x y = true) :
    x = y := by
  match x, y with
  | none, none => rfl
  | some a, some b => exact congrArg some (gboxEqb_eq h)
  | none, some _ => exact absurd h (by simp [optGBoxEqb])
  | some _, none => exact absurd h (by simp [optGBoxEqb])

/-- Boolean equality on optional rationals. -/
def optQEqb : Option ℚ → Option ℚ → Bool
  | none, none => true
  | some a, some b => qeqb a b
  | _, _ => false

theorem optQEqb_eq {x y : Option ℚ} (h : optQEqb x y = true) : x = y := by
  match x, y with
  | none, none => rfl
  | some a, some b => exact congrArg some (qeqb_eq h)
  | none, some _ => exact absurd h (by simp [optQEqb])
  | some _, none => exact absurd h (by simp [optQEqb])

/-- LINESTRING(0 0, 10 5), 2-D, no stored bbox, not geodetic. -/
def c8line : LWGeom :=
  LWGeom.mk 0 flags2d none
    (GBody.line { z := false, m := false, npoints := 2
                  data := [0, 0, 10, 5] })

set_option maxRecDepth 4000 in
/-- C8 (amended): peeking the serialized LINESTRING(0 0, 10 5) succeeds;
    under the spec's outward float rounding (never equal to the input)
    the mins become the next float below 0 and the maxes the next floats
    above 10 and 5. -/
theorem c8_peek_two_point_line :
    ((gserialized2_from_lwgeom c8line).bind gserialized2_peek_gbox_p) =
      some { flags := flags2d
             xmin := -(mkRat 1 (Nat.pow 2 149)), xmax := 10 + mkRat 1 (Nat.pow 2 20)
             ymin := -(mkRat 1 (Nat.pow 2 149)), ymax := 5 + mkRat 1 (Nat.pow 2 21)
             zmin := 0, zmax := 0, mmin := 0, mmax := 0 } := by
  apply optGBoxEqb_eq
  with_unfolding_all decide

set_option maxRecDepth 4000 in
/-- C8 counterexample: the claim's xmin = 0 fails after rounding — the
    peeked xmin is the next float below 0, which is nonzero. -/
theorem c8_counterexample :
    (((gserialized2_from_lwgeom c8line).bind gserialized2_peek_gbox_p).map
        GBox.xmin) = some (-(mkRat 1 (Nat.pow 2 149))) ∧
    -(mkRat 1 (Nat.pow 2 149)) ≠ 0 := by
  refine ⟨optQEqb_eq (by with_unfolding_all decide),
    qeqb_ne (by with_unfolding_all decide)⟩

/- ********************************************************************
   SQL-facing NURBS accessors (src/postgis/lwgeom_nurbs_functions.c).
   Each function takes the decoded argument (none = SQL NULL) and returns
   SQL NULL, a value, or an invalid-parameter error.
   ******************************************************************** -/

/-- Result of a SQL-facing function: SQL NULL, a value, or an ereport
    ERRCODE_INVALID_PARAMETER_VALUE error. -/
inductive PgResult (α : Type) where
| null : PgResult α
| ok (a : α) : PgResult α
| err : PgResult α
deriving DecidableEq

/-- The validity computation of ST_NurbsCurveIsValid
    (lwgeom_nurbs_functions.c:839-880): control points must exist with
    npoints ≥ degree+1; present weights must number at least npoints and
    be positive on the first min(nweights, npoints) entries; a present
    knot vector must have nknots ≥ npoints+degree+1 and be non-decreasing
    on the first npoints+degree+1 entries. -/
def nurbsIsValidCheck (nd : NurbsData) : Bool :=
  match nd.points with
  | none => false
  | some pa =>
    if pa.npoints < nd.degree + 1 then false
    else
      let wOk : Bool :=
        match nd.weights with
        | some ws =>
          if 0 < nd.nweights then
            if nd.nweights < pa.npoints then false
            else (List.range (min nd.nweights pa.npoints)).all
              (fun i => decide (0 < ws.getD i 0))
          else true
        | none => true
      if !wOk then false
      else
        match nd.knots with
        | some ks =>
          if 0 < nd.nknots then
            let expected := pa.npoints + nd.degree + 1
            if nd.nknots < expected then false
            else (List.range (min nd.nknots expected)).all
              (fun i => decide (i = 0 ∨ ks.getD (i - 1) 0 ≤ ks.getD i 0))
          else true
        | none => true

/-- ST_NurbsCurveIsValid (lwgeom_nurbs_functions.c:818-885): NULL on NULL
    input, false (not an error) on a non-NURBS geometry, else the validity
    verdict. -/
def ST_NurbsCurveIsValid (arg : Option LWGeom) : PgResult Bool :=
  match arg with
  | none => PgResult.null
  | some g =>
    match g.body with
    | GBody.nurbs nd => PgResult.ok (nurbsIsValidCheck nd)
    | _ => PgResult.ok false

/-- ST_NurbsCurveDegree (lwgeom_nurbs_functions.c:593-618): NULL on NULL,
    invalid-parameter error on a non-NURBS geometry, else the degree. -/
def ST_NurbsCurveDegree (arg : Option LWGeom) : PgResult Nat :=
  match arg with
  | none => PgResult.null
  | some g =>
    match g.body with
    | GBody.nurbs nd => PgResult.ok nd.degree
    | _ => PgResult.err

/-- ST_NurbsCurveWeights (lwgeom_nurbs_functions.c:633-667): NULL on NULL
    or when the curve stores no weights, error on non-NURBS input, else
    the nweights stored weights. -/
def ST_NurbsCurveWeights (arg : Option LWGeom) : PgResult (List ℚ) :=
  match arg with
  | none => PgResult.null
  | some g =>
    match g.body with
    | GBody.nurbs nd =>
      match nd.weights with
      | none => PgResult.null
      | some ws => PgResult.ok (ws.take nd.nweights)
    | _ => PgResult.err

/-- ST_NurbsCurveKnots (lwgeom_nurbs_functions.c:681-722): NULL on NULL
    or when no knots are stored (nknots = 0), error on non-NURBS input,
    else the nknots stored knots. -/
def ST_NurbsCurveKnots (arg : Option LWGeom) : PgResult (List ℚ) :=
  match arg with
  | none => PgResult.null
  | some g =>
    match g.body with
    | GBody.nurbs nd =>
      match nd.knots with
      | none => PgResult.null
      | some ks =>
        if nd.nknots = 0 then PgResult.null
        else PgResult.ok (ks.take nd.nknots)
    | _ => PgResult.err

/-- ST_NurbsCurveNumControlPoints (lwgeom_nurbs_functions.c:735-760):
    NULL on NULL, error on non-NURBS input, else the point count (0 when
    the points array is absent). -/
def ST_NurbsCurveNumControlPoints (arg : Option LWGeom) : PgResult Nat :=
  match arg with
  | none => PgResult.null
  | some g =>
    match g.body with
    | GBody.nurbs nd =>
      PgResult.ok (match nd.points with | some pa => pa.npoints | none => 0)
    | _ => PgResult.err

/-- ST_NurbsCurveIsRational (lwgeom_nurbs_functions.c:774-799): NULL on
    NULL, error on non-NURBS input, else whether weights are present. -/
def ST_NurbsCurveIsRational (arg : Option LWGeom) : PgResult Bool :=
  match arg with
  | none => PgResult.null
  | some g =>
    match g.body with
    | GBody.nurbs nd => PgResult.ok nd.weights.isSome
    | _ => PgResult.err

/-- ST_NurbsCurveControlPoints (lwgeom_nurbs_functions.c:540-579): NULL
    on NULL, invalid-parameter error on non-NURBS input and on a curve
    with no control points, else the control points (as the MULTIPOINT's
    point array). -/
def ST_NurbsCurveControlPoints (arg : Option LWGeom) : PgResult PtArray :=
  match arg with
  | none => PgResult.null
  | some g =>
    match g.body with
    | GBody.nurbs nd =>
      match nd.points with
      | none => PgResult.err
      | some pa =>
        if pa.npoints = 0 then PgResult.err else PgResult.ok pa
    | _ => PgResult.err

/-- C10: on a non-NULL argument that is not a NURBS curve,
    ST_NurbsCurveIsValid returns false while the degree, weights, knots,
    control-points, point-count and is-rational accessors all raise the
    invalid-parameter error. -/
theorem c10_error_channel_asymmetry (g : LWGeom)
    (h : ∀ nd, g.body ≠ GBody.nurbs nd) :
    ST_NurbsCurveIsValid (some g) = PgResult.ok false ∧
    ST_NurbsCurveDegree (some g) = PgResult.err ∧
    ST_NurbsCurveWeights (some g) = PgResult.err ∧
    ST_NurbsCurveKnots (some g) = PgResult.err ∧
    ST_NurbsCurveNumControlPoints (some g) = PgResult.err ∧
    ST_NurbsCurveIsRational (some g) = PgResult.err ∧
    ST_NurbsCurveControlPoints (some g) = PgResult.err := by
  obtain ⟨srid, flags, bbox, body⟩ := g
  cases body with
  | nurbs nd => exact absurd rfl (h nd)
  | point pa => exact ⟨rfl, rfl, rfl, rfl, rfl, rfl, rfl⟩
  | line pa => exact ⟨rfl, rfl, rfl, rfl, rfl, rfl, rfl⟩
  | circ pa => exact ⟨rfl, rfl, rfl, rfl, rfl, rfl, rfl⟩
  | tri pa => exact ⟨rfl, rfl, rfl, rfl, rfl, rfl, rfl⟩
  | poly rings => exact ⟨rfl, rfl, rfl, rfl, rfl, rfl, rfl⟩
  | coll t gs => exact ⟨rfl, rfl, rfl, rfl, rfl, rfl, rfl⟩

/-- C10 witness: POINT(1 2). -/
theorem c10_error_channel_asymmetry_witness :
    ST_NurbsCurveIsValid (some (LWGeom.mk 0 flags2d none
        (GBody.point { z := false, m := false, npoints := 1
                       data := [1, 2] }))) = PgResult.ok false ∧
    ST_NurbsCurveDegree (some (LWGeom.mk 0 flags2d none
        (GBody.point { z := false, m := false, npoints := 1
                       data := [1, 2] }))) = PgResult.err ∧
    ST_NurbsCurveWeights (some (LWGeom.mk 0 flags2d none
        (GBody.point { z := false, m := false, npoints := 1
                       data := [1, 2] }))) = PgResult.err ∧
    ST_NurbsCurveKnots (some (LWGeom.mk 0 flags2d none
        (GBody.point { z := false, m := false, npoints := 1
                       data := [1, 2] }))) = PgResult.err ∧
    ST_NurbsCurveNumControlPoints (some (LWGeom.mk 0 flags2d none
        (GBody.point { z := false, m := false, npoints := 1
                       data := [1, 2] }))) = PgResult.err ∧
    ST_NurbsCurveIsRational (some (LWGeom.mk 0 flags2d none
        (GBody.point { z := false, m := false, npoints := 1
                       data := [1, 2] }))) = PgResult.err ∧
    ST_NurbsCurveControlPoints (some (LWGeom.mk 0 flags2d none
        (GBody.point { z := false, m := false, npoints := 1
                       data := [1, 2] }))) = PgResult.err :=
  c10_error_channel_asymmetry
    (LWGeom.mk 0 flags2d none
      (GBody.point { z := false, m := false, npoints := 1, data := [1, 2] }))
    (fun nd h => GBody.noConfusion h)

end PostGis
